import Mathlib

/-!
# Shallow embedding of the libslinga SAT save-game core

This file embeds, in Lean 4, the save-allocation-table (SAT) core of the
libslinga Sega Saturn backup library (`src/devices/sat/sat.c`) together with
the Action Replay RLE decompression layer (`src/devices/action_replay.c`),
and proves or refutes a fixed list of claims about that code.

Modelling conventions:

* A partition (and every other byte buffer) is a `List Nat`, one element per
  physical byte; stored bytes are values `< 256`.  C reads that fall outside
  a buffer (undefined behaviour in C) read the value `0` (`List.getD`), and
  out-of-range writes are dropped (`List.set` is the identity out of range).
* Machine integers are `Nat`.  Arithmetic that can overflow an
  `unsigned int` in a way that matters to a claim is reduced `% 2^32`
  (see `UINT32_MOD` in `calc_num_blocks`).  Multi-byte fields are big-endian,
  matching the SH-2 target.
* C out-parameters become return values.  A C function that can leave an
  out-parameter untouched returns an `Option` for it where a claim depends
  on that (see `walk_partition`).
* Pointers that the C code only null-tests are modelled as always non-null
  (a `List` always exists); the corresponding null checks are either
  dropped or kept as checks on the sizes that accompany them.  Pointer
  parameters whose nullness selects behaviour (`saves`, `buffer`,
  `metadata`) become explicit `Bool`/`Option` parameters.
* Loops are compiled to recursive functions.  Loops with an evident
  decreasing measure use structural/well-founded recursion; the remaining
  loops take a fuel argument and return `none` when the fuel runs out, so
  `some` results are exactly the terminating executions of the C loop.
-/

namespace Slinga

/-- Error return codes from `libslinga.h`.  `SLINGA_NOT_ENOUGH_SPACE` is
referenced by `sat.c` (line 364) although the header copy in the repository
snapshot omits it; it is included here so that `sat_write` can be embedded. -/
inductive SLINGA_ERROR where
  | SLINGA_SUCCESS
  | SLINGA_NOT_INITIALIZED
  | SLINGA_INVALID_DEVICE_TYPE
  | SLINGA_BUFFER_TOO_SMALL
  | SLINGA_DEVICE_NOT_PRESENT
  | SLINGA_NOT_FORMATTED
  | SLINGA_DEVICE_TYPE_NOT_COMPILED_IN
  | SLINGA_NOT_SUPPORTED
  | SLINGA_INVALID_PARAMETER
  | SLINGA_FILE_EXISTS
  | SLINGA_UNKNOWN_CARTRIDGE
  | SLINGA_NOT_IMPLEMENTED
  | SLINGA_NOT_FOUND
  | SLINGA_MORE_DATA_AVAILABLE
  | SLINGA_NOT_ENOUGH_SPACE
  | SLINGA_SAT_UNFORMATTED
  | SLINGA_SAT_SAVE_OUT_OF_RANGE
  | SLINGA_SAT_INVALID_PARTITION
  | SLINGA_SAT_TOO_MANY_BLOCKS
  | SLINGA_SAT_BLOCKS_OUT_OF_ORDER
  | SLINGA_SAT_INVALID_SIZE
  | SLINGA_SAT_INVALID_READ_SIZE
  | SLINGA_SAT_INVALID_TAG
  | SLINGA_ACTION_REPLAY_UNSUPPORTED_COMPRESSION
  | SLINGA_ACTION_REPLAY_CORRUPT_COMPRESSION_HEADER
  | SLINGA_ACTION_REPLAY_FAILED_DECOMPRESS_1
  | SLINGA_ACTION_REPLAY_FAILED_DECOMPRESS_2
  | SLINGA_ACTION_REPLAY_PARTITION_TOO_LARGE
  | SLINGA_ACTION_REPLAY_EXTENDED_RAM_MISSING
  deriving DecidableEq, Repr

open SLINGA_ERROR

/-! ## Constants from `sat.h` / `libslinga.h` -/

def SAT_TAG_SIZE : Nat := 4
/-- `sizeof(SAT_START_BLOCK_HEADER)`: 4 (tag) + 11 (savename) + 1 (language)
+ 10 (comment) + 4 (timestamp) + 4 (data_size), packed. -/
def SAT_START_BLOCK_HEADER_SIZE : Nat := 34
def SAT_START_BLOCK_TAG : Nat := 0x80000000
def SAT_CONTINUE_BLOCK_TAG : Nat := 0
def MIN_BLOCK_SIZE : Nat := 64
def SAT_MAX_SAVE_NAME : Nat := 11
def SAT_MAX_SAVE_COMMENT : Nat := 10
def MAX_SAVENAME : Nat := 12
def MAX_COMMENT : Nat := 11
def SAT_MAX_BITMAP : Nat := 1024
def OVERWRITE_EXISTING_SAVE : Nat := 2
/-- `BACKUP_RAM_FORMAT_STR`: the ASCII bytes of "BackUpRam Format". -/
def BACKUP_RAM_FORMAT_BYTES : List Nat :=
  [66, 97, 99, 107, 85, 112, 82, 97, 109, 32, 70, 111, 114, 109, 97, 116]
def BACKUP_RAM_FORMAT_STR_LEN : Nat := 16
/-- 2^32; wrap-around modulus of the C `unsigned int` arithmetic. -/
def UINT32_MOD : Nat := 4294967296

/-! ## Byte assembly helpers (big-endian, as on the SH-2 target) -/

def beU16 (b0 b1 : Nat) : Nat := b0 * 256 + b1

def beU32 (b0 b1 b2 b3 : Nat) : Nat := ((b0 * 256 + b1) * 256 + b2) * 256 + b3

def u16Bytes (v : Nat) : List Nat := [v / 256 % 256, v % 256]

def u32Bytes (v : Nat) : List Nat :=
  [v / 16777216 % 256, v / 65536 % 256, v / 256 % 256, v % 256]

/-- Truncate/zero-pad a byte list to exactly `n` entries (a C `memcpy` of
`n` bytes out of a fixed-size array). -/
def padTo (n : Nat) (l : List Nat) : List Nat :=
  (List.range n).map (fun i => l.getD i 0)

/-! ## Skip-bytes layer (`read_from_partition`, `write_to_partition`,
`memset_partition` of `sat.c`)

`base` is the byte offset of the C pointer argument inside the partition
list.  With `skip_bytes = 1` the C code maps logical byte `i` at logical
offset `off` to physical offset `2*off + 2*i + 1`. -/

/-- Physical position of logical byte `i` at logical offset `off`. -/
def skipPos (base off i skip : Nat) : Nat :=
  if skip = 0 then base + off + i else base + 2 * off + 2 * i + 1

/-- The pure byte-gather of `read_from_partition` (no parameter checks). -/
def readBytes (p : List Nat) (base off size skip : Nat) : List Nat :=
  (List.range size).map (fun i => p.getD (skipPos base off i skip) 0)

/-- `read_from_partition` (sat.c:2296).  The null checks on `dst`/`src`
  are inherent in the model; `!size` and the `skip_bytes` check remain. -/
def read_from_partition (p : List Nat) (base off size skip : Nat) :
    Except SLINGA_ERROR (List Nat) :=
  if size = 0 then .error SLINGA_INVALID_PARAMETER
  else if skip ≠ 0 ∧ skip ≠ 1 then .error SLINGA_INVALID_PARAMETER
  else .ok (readBytes p base off size skip)

/-- `write_to_partition` (sat.c:2337). Writes `size` bytes of `src`. -/
def write_to_partition (p : List Nat) (base off : Nat) (src : List Nat)
    (size skip : Nat) : Except SLINGA_ERROR (List Nat) :=
  if size = 0 then .error SLINGA_INVALID_PARAMETER
  else if skip ≠ 0 ∧ skip ≠ 1 then .error SLINGA_INVALID_PARAMETER
  else .ok ((List.range size).foldl
      (fun acc i => acc.set (skipPos base off i skip) (src.getD i 0)) p)

/-- `memset_partition` (sat.c:2378). -/
def memset_partition (p : List Nat) (base off val size skip : Nat) :
    Except SLINGA_ERROR (List Nat) :=
  if size = 0 then .error SLINGA_INVALID_PARAMETER
  else if skip ≠ 0 ∧ skip ≠ 1 then .error SLINGA_INVALID_PARAMETER
  else .ok ((List.range size).foldl
      (fun acc i => acc.set (skipPos base off i skip) val) p)

/-! ## SAT bitmap helpers (sat.c:2130-2279) -/

/-- `get_bitmap_size` (sat.c:2130).  Note the C code null-checks
`max_bitmap_size` but never compares the computed size against it. -/
def get_bitmap_size (partition_size block_size max_bitmap_size : Nat) :
    Except SLINGA_ERROR Nat :=
  if partition_size = 0 ∨ block_size = 0 ∨ max_bitmap_size = 0 then
    .error SLINGA_INVALID_PARAMETER
  else if block_size % 8 ≠ 0 then .error SLINGA_INVALID_PARAMETER
  else if partition_size % block_size ≠ 0 then .error SLINGA_INVALID_PARAMETER
  else .ok (partition_size / block_size / 8)

/-- `set_bitmap` (sat.c:2161). -/
def set_bitmap (block_index : Nat) (bitmap : List Nat) (bitmap_size : Nat) :
    Except SLINGA_ERROR (List Nat) :=
  if bitmap_size = 0 then .error SLINGA_INVALID_PARAMETER
  else if bitmap_size ≤ block_index / 8 then .error SLINGA_INVALID_PARAMETER
  else
    let byte_index := block_index / 8
    let bit_index := block_index % 8
    .ok (bitmap.set byte_index ((bitmap.getD byte_index 0) ||| (1 <<< bit_index)))

/-- Scan of `get_next_block_bitmap` (sat.c:2205): first `i` in
`[start, bits)` whose bitmap bit is set.  Structural recursion on the
remaining iteration count (`bits - i` at the entry) so the kernel can
evaluate it. -/
def get_next_block_bitmap_loop (bitmap : List Nat) (bits i : Nat) :
    Nat → Except SLINGA_ERROR Nat
  | 0 => .error SLINGA_NOT_FOUND
  | remaining + 1 =>
    if i < bits then
      if (bitmap.getD (i / 8) 0) &&& (1 <<< (i % 8)) ≠ 0 then .ok i
      else get_next_block_bitmap_loop bitmap bits (i + 1) remaining
    else .error SLINGA_NOT_FOUND

/-- `get_next_block_bitmap` (sat.c:2195). -/
def get_next_block_bitmap (block_index : Nat) (bitmap : List Nat)
    (bitmap_size : Nat) : Except SLINGA_ERROR Nat :=
  if bitmap_size = 0 then .error SLINGA_INVALID_PARAMETER
  else get_next_block_bitmap_loop bitmap (bitmap_size * 8) (block_index + 1)
    (bitmap_size * 8)

/-- The `NIBBLE_LOOKUP_TABLE` of `count_bitmap`. -/
def NIBBLE_LOOKUP_TABLE : List Nat := [0, 1, 1, 2, 1, 2, 2, 3, 1, 2, 2, 3, 2, 3, 3, 4]

/-- Per-byte population count of `count_bitmap`, via the nibble table.
`% 256` models the `unsigned char` read. -/
def countByte (b : Nat) : Nat :=
  NIBBLE_LOOKUP_TABLE.getD (b % 256 % 16) 0 + NIBBLE_LOOKUP_TABLE.getD (b % 256 / 16) 0

/-- `count_bitmap` (sat.c:2231). -/
def count_bitmap (bitmap : List Nat) (bitmap_size : Nat) :
    Except SLINGA_ERROR Nat :=
  if bitmap_size = 0 then .error SLINGA_INVALID_PARAMETER
  else .ok (((List.range bitmap_size).map (fun i => countByte (bitmap.getD i 0))).sum)

/-- `invert_bitmap` (sat.c:2266): `bitmap[i] = ~bitmap[i]` on
`unsigned char`, for every `i < bitmap_size`. -/
def invert_bitmap (bitmap : List Nat) (bitmap_size : Nat) :
    Except SLINGA_ERROR (List Nat) :=
  if bitmap_size = 0 then .error SLINGA_INVALID_PARAMETER
  else .ok (bitmap.mapIdx (fun i b => if i < bitmap_size then 255 - b % 256 else b))

/-! ## Block count calculation (`calc_num_blocks`, sat.c:643) -/

/-- The `do { ... } while(num_blocks != num_blocks2)` loop of
`calc_num_blocks`, entered with `num_blocks2 = 0`.  `usable` is
`block_size - SAT_TAG_SIZE`; additions wrap `% 2^32` as in C. -/
def calc_num_blocks_loop (fixed_bytes usable : Nat) : Nat → Nat → Option Nat
  | 0, _ => none
  | fuel + 1, num_blocks2 =>
    let num_blocks := num_blocks2
    let total_bytes := (fixed_bytes + (num_blocks + 1) * 2) % UINT32_MOD
    let n2 := total_bytes / usable + (if total_bytes % usable ≠ 0 then 1 else 0)
    if num_blocks = n2 then some num_blocks
    else calc_num_blocks_loop fixed_bytes usable fuel n2

/-- `calc_num_blocks` (sat.c:643).  The two statements before the `do`
loop in the C source compute values that the first loop iteration
overwrites (`num_blocks = num_blocks2` with `num_blocks2 = 0`), so they
are not reproduced.  `usable` uses the wrapped unsigned subtraction. -/
def calc_num_blocks (save_size block_size skip_bytes : Nat) :
    Option (Except SLINGA_ERROR Nat) :=
  if save_size = 0 ∨ block_size = 0 then some (.error SLINGA_INVALID_PARAMETER)
  else if skip_bytes ≠ 0 ∧ skip_bytes ≠ 1 then some (.error SLINGA_INVALID_PARAMETER)
  else
    let block_size := if skip_bytes = 1 then block_size / 2 else block_size
    if block_size % MIN_BLOCK_SIZE ≠ 0 then some (.error SLINGA_INVALID_PARAMETER)
    else
      let fixed_bytes := (SAT_START_BLOCK_HEADER_SIZE - SAT_TAG_SIZE + save_size) % UINT32_MOD
      let usable := (block_size + UINT32_MOD - SAT_TAG_SIZE) % UINT32_MOD
      match calc_num_blocks_loop fixed_bytes usable (fixed_bytes + 64) 0 with
      | none => none
      | some n => some (.ok n)

/-! ## Address/index conversion (sat.c:722, sat.c:767)

Pointers into the partition are byte offsets from `partition_buf`. -/

/-- `convert_address_to_block_index` (sat.c:722). -/
def convert_address_to_block_index (addr partition_size block_size : Nat) :
    Except SLINGA_ERROR Nat :=
  if partition_size = 0 ∨ block_size = 0 then .error SLINGA_INVALID_PARAMETER
  else if partition_size ≤ addr then .error SLINGA_INVALID_PARAMETER
  else .ok (addr / block_size)

/-- `convert_block_index_to_address` (sat.c:767). -/
def convert_block_index_to_address (block_index partition_size block_size skip : Nat) :
    Except SLINGA_ERROR Nat :=
  if partition_size = 0 ∨ block_size = 0 then .error SLINGA_INVALID_PARAMETER
  else if skip ≠ 0 ∧ skip ≠ 1 then .error SLINGA_INVALID_PARAMETER
  else if partition_size ≤ block_index * block_size then .error SLINGA_INVALID_PARAMETER
  else .ok (block_index * block_size)

/-! ## The start-block header (`SAT_START_BLOCK_HEADER`, sat.h) -/

structure SAT_START_BLOCK_HEADER where
  tag : Nat
  savename : List Nat   -- 11 bytes, not necessarily NUL-terminated
  language : Nat
  comment : List Nat    -- 10 bytes, not necessarily NUL-terminated
  timestamp : Nat
  data_size : Nat
  deriving DecidableEq, Repr

/-- View 34 raw bytes as a `SAT_START_BLOCK_HEADER` (packed, big-endian). -/
def parseHeader (b : List Nat) : SAT_START_BLOCK_HEADER :=
  { tag := beU32 (b.getD 0 0) (b.getD 1 0) (b.getD 2 0) (b.getD 3 0)
  , savename := (List.range 11).map (fun i => b.getD (4 + i) 0)
  , language := b.getD 15 0
  , comment := (List.range 10).map (fun i => b.getD (16 + i) 0)
  , timestamp := beU32 (b.getD 26 0) (b.getD 27 0) (b.getD 28 0) (b.getD 29 0)
  , data_size := beU32 (b.getD 30 0) (b.getD 31 0) (b.getD 32 0) (b.getD 33 0) }

/-- The 34 raw bytes of a `SAT_START_BLOCK_HEADER`. -/
def headerBytes (h : SAT_START_BLOCK_HEADER) : List Nat :=
  u32Bytes h.tag ++ padTo 11 h.savename ++ [h.language % 256] ++
    padTo 10 h.comment ++ u32Bytes h.timestamp ++ u32Bytes h.data_size

/-- `SAVE_METADATA` of `libslinga.h` (string fields as byte lists). -/
structure SAVE_METADATA where
  filename : List Nat
  savename : List Nat
  comment : List Nat
  language : Nat
  timestamp : Nat
  data_size : Nat
  block_size : Nat
  deriving DecidableEq, Repr

/-- `metadata_to_header` (sat.c:861). `memcpy` of the fixed-width name and
comment fields. -/
def metadata_to_header (m : SAVE_METADATA) : SAT_START_BLOCK_HEADER :=
  { tag := SAT_START_BLOCK_TAG
  , savename := padTo SAT_MAX_SAVE_NAME m.savename
  , language := m.language
  , comment := padTo SAT_MAX_SAVE_COMMENT m.comment
  , timestamp := m.timestamp
  , data_size := m.data_size }

/-- C `strncmp(a, b, n) == 0`: byte lists are C strings, reads past the end
of a list give the NUL terminator. -/
def strncmpZero (a b : List Nat) (i n : Nat) : Bool :=
  match n with
  | 0 => true
  | n + 1 =>
    let x := a.getD i 0
    let y := b.getD i 0
    if x ≠ y then false
    else if x = 0 then true
    else strncmpZero a b (i + 1) n

/-- `copy_metadata` (sat.c:813).  Note the C `memcpy`s read `MAX_SAVENAME`
(12) bytes out of the 11-byte `savename` field and `MAX_COMMENT` (11) bytes
out of the 10-byte `comment` field, so each picks up one byte of the next
header field; the copies are reproduced from the raw header bytes. -/
def copy_metadata (p : List Nat) (save : Nat) (skip : Nat) :
    Except SLINGA_ERROR SAVE_METADATA :=
  match read_from_partition p save 0 SAT_START_BLOCK_HEADER_SIZE skip with
  | .error e => .error e
  | .ok b =>
    let savename := (List.range MAX_SAVENAME).map (fun i => b.getD (4 + i) 0) ++ [0]
    let filename := savename.takeWhile (fun c => c ≠ 0) ++ [46, 66, 85, 80]
    let comment := (List.range MAX_COMMENT).map (fun i => b.getD (16 + i) 0) ++ [0]
    .ok { filename := filename
        , savename := savename
        , comment := comment
        , language := b.getD 15 0
        , timestamp := beU32 (b.getD 26 0) (b.getD 27 0) (b.getD 28 0) (b.getD 29 0)
        , data_size := beU32 (b.getD 30 0) (b.getD 31 0) (b.getD 32 0) (b.getD 33 0)
        , block_size := 0 }

/-! ## Save locator (`find_save`, sat.c:892) -/

/-- The block scan of `find_save`: `for(i = 2*block_size; i < partition_size;
i += block_size)`.  Each iteration consumes one unit of fuel; the C loop
performs at most `partition_size` iterations (`block_size ≥ 1`). -/
def find_save_loop (filename : List Nat) (p : List Nat)
    (partition_size block_size skip i : Nat) : Nat → Option (Except SLINGA_ERROR Nat)
  | 0 => none
  | fuel + 1 =>
    if i < partition_size then
      match read_from_partition p i 0 SAT_START_BLOCK_HEADER_SIZE skip with
      | .error e => some (.error e)
      | .ok b =>
        let metadata := parseHeader b
        if metadata.tag = SAT_START_BLOCK_TAG then
          if strncmpZero filename metadata.savename 0 SAT_MAX_SAVE_NAME then
            some (.ok i)
          else find_save_loop filename p partition_size block_size skip (i + block_size) fuel
        else find_save_loop filename p partition_size block_size skip (i + block_size) fuel
    else some (.error SLINGA_NOT_FOUND)

/-- `find_save` (sat.c:892).  Returns the byte offset of the save's start
block.  (The in-loop pointer range validation is vacuous for `i <
partition_size` and is not reproduced.) -/
def find_save (filename : List Nat) (p : List Nat)
    (partition_size block_size skip : Nat) : Option (Except SLINGA_ERROR Nat) :=
  if partition_size = 0 ∨ block_size = 0 then some (.error SLINGA_INVALID_PARAMETER)
  else find_save_loop filename p partition_size block_size skip
    (2 * block_size) (partition_size + 1)

/-! ## SAT table reader (sat.c:1273-1760) -/

/-- The out-parameters threaded through `read_sat_table` and
`read_sat_table_from_block`. -/
structure SatTableState where
  bitmap : List Nat
  start_data_block : Nat
  written_sat_entries : Nat
  deriving DecidableEq, Repr

/-- The entry loop of `read_sat_table_from_block` (sat.c:1723):
`for(; start_byte < block_size; start_byte += sizeof(unsigned short))`,
where `block_size` has already been halved for `skip_bytes = 1`.
Reads 16-bit entries until the `0x0000` terminator (`SLINGA_SUCCESS`),
an out-of-order entry (`SLINGA_SAT_BLOCKS_OUT_OF_ORDER`), or the end of
the block (`SLINGA_MORE_DATA_AVAILABLE`). -/
def sat_entry_loop (p : List Nat) (save_start_block_addr : Nat) (skip : Nat)
    (block_index block_size bitmap_size : Nat) (start_byte : Nat)
    (st : SatTableState) : Nat → SLINGA_ERROR × SatTableState
  | 0 => (SLINGA_MORE_DATA_AVAILABLE, st)
  | fuel + 1 =>
    if start_byte < block_size then
      match read_from_partition p save_start_block_addr start_byte 2 skip with
      | .error e => (e, st)
      | .ok b =>
        let index := beU16 (b.getD 0 0) (b.getD 1 0)
        if index = 0 then
          (SLINGA_SUCCESS, { st with start_data_block := block_index })
        else if index ≤ block_index then
          (SLINGA_SAT_BLOCKS_OUT_OF_ORDER, st)
        else
          match set_bitmap index st.bitmap bitmap_size with
          | .error e => (e, st)
          | .ok bm =>
            sat_entry_loop p save_start_block_addr skip block_index block_size
              bitmap_size (start_byte + 2)
              { st with bitmap := bm, written_sat_entries := st.written_sat_entries + 1 }
              fuel
    else (SLINGA_MORE_DATA_AVAILABLE, st)

/-- `read_sat_table_from_block` (sat.c:1633). -/
def read_sat_table_from_block (block_index : Nat) (st : SatTableState)
    (bitmap_size : Nat)
    (p : List Nat) (partition_size block_size skip start_block : Nat) :
    SLINGA_ERROR × SatTableState :=
  if block_index = 0 ∨ bitmap_size = 0 ∨ partition_size = 0 ∨
      block_size = 0 ∨ start_block = 0 then
    (SLINGA_INVALID_PARAMETER, st)
  else if block_size % MIN_BLOCK_SIZE ≠ 0 then (SLINGA_INVALID_PARAMETER, st)
  else if partition_size % block_size ≠ 0 then (SLINGA_INVALID_PARAMETER, st)
  else
    match convert_block_index_to_address block_index partition_size block_size skip with
    | .error e => (e, st)
    | .ok save_start_block =>
      match read_from_partition p save_start_block 0 SAT_START_BLOCK_HEADER_SIZE skip with
      | .error e => (e, st)
      | .ok hb =>
        let save_start := parseHeader hb
        let tagCheck : Except SLINGA_ERROR Nat :=
          if block_index = start_block then
            if save_start.tag ≠ SAT_START_BLOCK_TAG then .error SLINGA_SAT_INVALID_TAG
            else .ok SAT_START_BLOCK_HEADER_SIZE
          else
            if save_start.tag ≠ SAT_CONTINUE_BLOCK_TAG then .error SLINGA_SAT_INVALID_TAG
            else .ok SAT_TAG_SIZE
        match tagCheck with
        | .error e => (e, st)
        | .ok start_byte =>
          let block_size := if skip = 1 then block_size / 2 else block_size
          sat_entry_loop p save_start_block skip block_index block_size bitmap_size
            start_byte st (block_size + 2)

/-- The `do { ... } while(1)` chain walk of `read_sat_table`
(sat.c:1360-1388) together with the bitmap population check that follows
it (sat.c:1390-1401), which is only reachable through the loop's `break`.

The condition `result == SLINGA_SUCCESS && result != SLINGA_MORE_DATA_AVAILABLE`
is translated exactly as written in the source (sat.c:1371). -/
def read_sat_table_loop (p : List Nat)
    (partition_size block_size skip start_block num_sat_blocks bitmap_size : Nat)
    (cur_sat_block : Nat) (st : SatTableState) :
    Nat → Option (SLINGA_ERROR × SatTableState)
  | 0 => none
  | fuel + 1 =>
    if num_sat_blocks < st.written_sat_entries then
      some (SLINGA_SAT_TOO_MANY_BLOCKS, st)
    else
      let (result, st') := read_sat_table_from_block cur_sat_block st bitmap_size p
        partition_size block_size skip start_block
      if result = SLINGA_SUCCESS ∧ result ≠ SLINGA_MORE_DATA_AVAILABLE then
        some (result, st')
      else
        match get_next_block_bitmap cur_sat_block st'.bitmap bitmap_size with
        | .error SLINGA_NOT_FOUND =>
          -- `break`: fall through to the population-count check
          (match count_bitmap st'.bitmap bitmap_size with
          | .error e => some (e, st')
          | .ok bitmap_count =>
            if bitmap_count ≠ num_sat_blocks then
              some (SLINGA_SAT_INVALID_PARTITION, st')
            else some (SLINGA_SUCCESS, st'))
        | .error e => some (e, st')
        | .ok next => read_sat_table_loop p partition_size block_size skip
            start_block num_sat_blocks bitmap_size next st' fuel

/-- `read_sat_table` (sat.c:1273).  Returns
`(code, start_block, start_data_block, bitmap)`. -/
def read_sat_table (p : List Nat) (partition_size block_size skip : Nat)
    (save_start : Nat) (bitmap : List Nat) (bitmap_size : Nat) :
    Option (SLINGA_ERROR × Nat × Nat × List Nat) :=
  if partition_size = 0 ∨ block_size = 0 ∨ bitmap_size = 0 then
    some (SLINGA_INVALID_PARAMETER, 0, 0, bitmap)
  else if block_size % MIN_BLOCK_SIZE ≠ 0 then
    some (SLINGA_INVALID_PARAMETER, 0, 0, bitmap)
  else if partition_size % block_size ≠ 0 then
    some (SLINGA_INVALID_PARAMETER, 0, 0, bitmap)
  else
    match read_from_partition p save_start 0 SAT_START_BLOCK_HEADER_SIZE skip with
    | .error e => some (e, 0, 0, bitmap)
    | .ok hb =>
      let save_header := parseHeader hb
      match calc_num_blocks save_header.data_size block_size skip with
      | none => none
      | some (.error e) => some (e, 0, 0, bitmap)
      | some (.ok num_sat_blocks) =>
        if bitmap_size * 8 < num_sat_blocks then
          some (SLINGA_SAT_SAVE_OUT_OF_RANGE, 0, 0, bitmap)
        else
          match convert_address_to_block_index save_start partition_size block_size with
          | .error e => some (e, 0, 0, bitmap)
          | .ok start_block =>
            match set_bitmap start_block bitmap bitmap_size with
            | .error e => some (e, start_block, 0, bitmap)
            | .ok bm =>
              let st : SatTableState :=
                { bitmap := bm, start_data_block := 0, written_sat_entries := 1 }
              match read_sat_table_loop p partition_size block_size skip
                  start_block num_sat_blocks bitmap_size start_block st
                  (bitmap_size * 8 + 2) with
              | none => none
              | some (code, st') =>
                some (code, start_block, st'.start_data_block, st'.bitmap)

/-! ## Save payload reader (`read_save_from_sat_table`, sat.c:1423) -/

/-- The terminator scan inside `read_save_from_sat_table` (sat.c:1522):
`for(i = offset; i < block_data_size; i += 2)` looking for a zero 16-bit
entry at logical offset `i + SAT_TAG_SIZE`; on a hit `offset = i + 2`.
Returns `none` when the scan falls off the end (`offset` keeps its old
value in the C code). -/
def find_data_offset (p : List Nat) (block : Nat) (skip : Nat)
    (block_data_size i : Nat) : Nat → Option Nat
  | 0 => none
  | fuel + 1 =>
    if i < block_data_size then
      let b := readBytes p block (i + SAT_TAG_SIZE) 2 skip
      if beU16 (b.getD 0 0) (b.getD 1 0) = 0 then some (i + 2)
      else find_data_offset p block skip block_data_size (i + 2) fuel
    else none

/-- The `while(1)` copy loop of `read_save_from_sat_table`
(sat.c:1468-1602).  `buf` collects the bytes written to the caller's
buffer (`bytes_written = buf.length`).  The `break` of the C loop falls
through to the final size check (sat.c:1604-1614), inlined here. -/
def read_save_loop (p : List Nat)
    (partition_size block_size skip start_block start_data_block : Nat)
    (bitmap : List Nat) (bitmap_size block_data_size size : Nat)
    (cur_sat_block : Nat) (buf : List Nat) :
    Nat → Option (SLINGA_ERROR × List Nat)
  | 0 => none
  | fuel + 1 =>
    -- bottom of the loop body: `get_next_block_bitmap` then iterate or break
    let nextOrBreak : List Nat → Nat → Option (SLINGA_ERROR × List Nat) :=
      fun buf cur =>
        match get_next_block_bitmap cur bitmap bitmap_size with
        | .error SLINGA_NOT_FOUND =>
          some (if buf.length = size then (SLINGA_SUCCESS, buf)
                else (SLINGA_SAT_INVALID_READ_SIZE, buf))
        | .error e => some (e, buf)
        | .ok next => read_save_loop p partition_size block_size skip
            start_block start_data_block bitmap bitmap_size block_data_size
            size next buf fuel
    match convert_block_index_to_address cur_sat_block partition_size block_size skip with
    | .error e => some (e, buf)
    | .ok block =>
      if cur_sat_block ≠ start_block ∧ cur_sat_block ≠ start_data_block then
        -- plain data block: copy after the tag
        let bytes_to_copy :=
          if size - buf.length < block_data_size then size - buf.length
          else block_data_size
        match read_from_partition p block SAT_TAG_SIZE bytes_to_copy skip with
        | .error e => some (e, buf)
        | .ok bytes => nextOrBreak (buf ++ bytes) cur_sat_block
      else if cur_sat_block = start_data_block then
        -- last SAT-table block: skip the entries and their terminator
        let offset : Nat :=
          if cur_sat_block = start_block then
            SAT_START_BLOCK_HEADER_SIZE - SAT_TAG_SIZE
          else 0
        let offset :=
          match find_data_offset p block skip block_data_size offset
              (block_data_size + 2) with
          | some o => o
          | none => offset
        -- edge case (sat.c:1541): terminator ended exactly at the boundary:
        -- roll over to the next block of the bitmap
        let rollover : Except (Option SLINGA_ERROR) (Nat × Nat × Nat) :=
          if offset = block_data_size then
            match get_next_block_bitmap cur_sat_block bitmap bitmap_size with
            | .error SLINGA_NOT_FOUND => .error none  -- `break`
            | .error _ =>
              -- other codes are not checked by the C; `cur_sat_block` and
              -- `block` keep their values and `offset` becomes 0
              .ok (cur_sat_block, block, 0)
            | .ok next =>
              match convert_block_index_to_address next partition_size block_size skip with
              | .error e => .error (some e)
              | .ok blk => .ok (next, blk, 0)
          else .ok (cur_sat_block, block, offset)
        match rollover with
        | .error none =>
          some (if buf.length = size then (SLINGA_SUCCESS, buf)
                else (SLINGA_SAT_INVALID_READ_SIZE, buf))
        | .error (some e) => some (e, buf)
        | .ok (cur_sat_block, block, offset) =>
          let bytes_to_copy := block_data_size - offset
          let bytes_to_copy :=
            if size - buf.length < block_data_size - offset then size - buf.length
            else bytes_to_copy
          if block_data_size < bytes_to_copy then
            some (SLINGA_SAT_INVALID_SIZE, buf)
          else if size < buf.length + bytes_to_copy then
            some (SLINGA_SAT_INVALID_SIZE, buf)
          else
            match read_from_partition p block (offset + SAT_TAG_SIZE) bytes_to_copy skip with
            | .error e => some (e, buf)
            | .ok bytes => nextOrBreak (buf ++ bytes) cur_sat_block
      else
        -- `cur_sat_block = start_block ≠ start_data_block`: header/chain
        -- only, nothing copied in this iteration
        nextOrBreak buf cur_sat_block

/-- `read_save_from_sat_table` (sat.c:1423).  Returns the error code and
the bytes written into the caller's buffer. -/
def read_save_from_sat_table (size : Nat)
    (start_block start_data_block : Nat) (bitmap : List Nat) (bitmap_size : Nat)
    (p : List Nat) (partition_size block_size skip : Nat) :
    Option (SLINGA_ERROR × List Nat) :=
  if size = 0 ∨ start_block = 0 ∨ start_data_block = 0 ∨ bitmap_size = 0 ∨
      partition_size = 0 ∨ block_size = 0 then
    some (SLINGA_INVALID_PARAMETER, [])
  else
    match (if skip = 0 then .ok (block_size - SAT_TAG_SIZE)
           else if skip = 1 then .ok (block_size / 2 - SAT_TAG_SIZE)
           else .error SLINGA_INVALID_PARAMETER :
            Except SLINGA_ERROR Nat) with
    | .error e => some (e, [])
    | .ok block_data_size =>
      read_save_loop p partition_size block_size skip start_block
        start_data_block bitmap bitmap_size block_data_size size
        start_data_block [] (bitmap_size * 8 + 2)

/-! ## Read entry points (sat.c:956, sat.c:201, sat.c:168) -/

/-- `read_save_and_metadata` (sat.c:956).  The C `metadata` and `buffer`
pointers select which outputs are produced; their nullness becomes the
`wantMetadata`/`wantBuffer` flags.  Returns
`(code, buffer bytes, metadata)`. -/
def read_save_and_metadata (p : List Nat)
    (partition_size block_size skip : Nat) (wantMetadata : Bool)
    (filename : List Nat) (wantBuffer : Bool) (size : Nat) :
    Option (SLINGA_ERROR × List Nat × Option SAVE_METADATA) :=
  match find_save filename p partition_size block_size skip with
  | none => none
  | some (.error e) => some (e, [], none)
  | some (.ok save_start) =>
    match read_from_partition p save_start 0 SAT_START_BLOCK_HEADER_SIZE skip with
    | .error e => some (e, [], none)
    | .ok hb =>
      let save_header := parseHeader hb
      let bufferStep : Option (Except SLINGA_ERROR (List Nat)) :=
        if wantBuffer then
          let save_size := save_header.data_size
          if save_size < size then some (.error SLINGA_BUFFER_TOO_SMALL)
          else
            match get_bitmap_size partition_size block_size SAT_MAX_BITMAP with
            | .error e => some (.error e)
            | .ok bitmap_size =>
              -- `memset(g_SAT_bitmap, 0, bitmap_size)`
              let bitmap0 := List.replicate bitmap_size 0
              match read_sat_table p partition_size block_size skip save_start
                  bitmap0 bitmap_size with
              | none => none
              | some (code, start_block, start_data_block, bm) =>
                if code ≠ SLINGA_SUCCESS then some (.error code)
                else
                  match read_save_from_sat_table size start_block
                      start_data_block bm bitmap_size p partition_size
                      block_size skip with
                  | none => none
                  | some (code2, buf) =>
                    if code2 ≠ SLINGA_SUCCESS then some (.error code2)
                    else some (.ok buf)
        else some (.ok [])
      match bufferStep with
      | none => none
      | some (.error e) => some (e, [], none)
      | some (.ok buf) =>
        if wantMetadata then
          match copy_metadata p save_start skip with
          | .error e => some (e, buf, none)
          | .ok md => some (SLINGA_SUCCESS, buf, some md)
        else some (SLINGA_SUCCESS, buf, none)

/-- `sat_read` (sat.c:201): wrapper around `read_save_and_metadata` with a
caller buffer and no metadata.  Returns `(code, bytes read)`. -/
def sat_read (filename : List Nat) (size : Nat) (p : List Nat)
    (partition_size block_size skip : Nat) :
    Option (SLINGA_ERROR × List Nat) :=
  match read_save_and_metadata p partition_size block_size skip false
      filename true size with
  | none => none
  | some (code, buf, _) => some (code, buf)

/-- `sat_query_file` (sat.c:168): wrapper with metadata only. -/
def sat_query_file (filename : List Nat) (p : List Nat)
    (partition_size block_size skip : Nat) :
    Option (SLINGA_ERROR × Option SAVE_METADATA) :=
  match read_save_and_metadata p partition_size block_size skip true
      filename false 0 with
  | none => none
  | some (code, _, md) => some (code, md)

/-! ## Partition walker (`walk_partition`, sat.c:1069) -/

/-- Result of `walk_partition`: the error code, the metadata entries copied
into the caller's array, and the values stored through the
`saves_available` / `used_blocks` out-parameters (`none` when the C code
returns without writing them). -/
structure WalkResult where
  code : SLINGA_ERROR
  saves : List SAVE_METADATA
  saves_available : Option Nat
  used_blocks : Option Nat
  deriving DecidableEq, Repr

/-- The block scan of `walk_partition` (sat.c:1097-1144). -/
def walk_partition_loop (p : List Nat)
    (partition_size block_size skip : Nat) (wantSaves : Bool) (num_saves : Nat)
    (i saves_found blocks_found : Nat) (acc : List SAVE_METADATA) :
    Nat → Option WalkResult
  | 0 => none
  | fuel + 1 =>
    if i < partition_size then
      match read_from_partition p i 0 SAT_START_BLOCK_HEADER_SIZE skip with
      | .error e => some ⟨e, acc, none, none⟩
      | .ok b =>
        let metadata := parseHeader b
        if metadata.tag = SAT_START_BLOCK_TAG then
          match calc_num_blocks metadata.data_size block_size skip with
          | none => none
          | some (.error _) => some ⟨SLINGA_SAT_INVALID_PARTITION, acc, none, none⟩
          | some (.ok save_blocks) =>
            let blocks_found := blocks_found + save_blocks
            if wantSaves then
              if num_saves ≤ saves_found then
                -- sat.c:1130: `return SLINGA_BUFFER_TOO_SMALL;` — the
                -- out-parameters are left unwritten (the `break` after it
                -- is dead code)
                some ⟨SLINGA_BUFFER_TOO_SMALL, acc, none, none⟩
              else
                match copy_metadata p i skip with
                | .error e => some ⟨e, acc, none, none⟩
                | .ok md =>
                  walk_partition_loop p partition_size block_size skip wantSaves
                    num_saves (i + block_size) (saves_found + 1) blocks_found
                    (acc ++ [md]) fuel
            else
              walk_partition_loop p partition_size block_size skip wantSaves
                num_saves (i + block_size) (saves_found + 1) blocks_found acc fuel
        else
          walk_partition_loop p partition_size block_size skip wantSaves
            num_saves (i + block_size) saves_found blocks_found acc fuel
    else
      some ⟨SLINGA_SUCCESS, acc, some saves_found, some blocks_found⟩

/-- `walk_partition` (sat.c:1069). -/
def walk_partition (p : List Nat) (partition_size block_size skip : Nat)
    (wantSaves : Bool) (num_saves : Nat) : Option WalkResult :=
  if partition_size = 0 ∨ block_size = 0 then
    some ⟨SLINGA_INVALID_PARAMETER, [], none, none⟩
  else if partition_size < block_size ∨ partition_size % block_size ≠ 0 then
    some ⟨SLINGA_INVALID_PARAMETER, [], none, none⟩
  else
    walk_partition_loop p partition_size block_size skip wantSaves num_saves
      (2 * block_size) 0 0 [] (partition_size + 1)

/-- `sat_list_saves` (sat.c:137): wrapper for `walk_partition` with a
caller-supplied `saves` array and the `saves_available` out-parameter. -/
def sat_list_saves (p : List Nat) (partition_size block_size skip : Nat)
    (num_saves : Nat) : Option WalkResult :=
  walk_partition p partition_size block_size skip true num_saves

/-- `sat_get_used_blocks` (sat.c:107): wrapper for `walk_partition` with
no `saves` array. -/
def sat_get_used_blocks (p : List Nat) (partition_size block_size skip : Nat) :
    Option WalkResult :=
  walk_partition p partition_size block_size skip false 0

/-! ## Busy-block bitmap rebuild (`walk_partition_bitmap`, sat.c:1171) -/

/-- The block scan of `walk_partition_bitmap` (sat.c:1213-1249). -/
def walk_partition_bitmap_loop (p : List Nat)
    (partition_size block_size skip bitmap_size : Nat) (i : Nat)
    (bitmap : List Nat) : Nat → Option (Except SLINGA_ERROR (List Nat))
  | 0 => none
  | fuel + 1 =>
    if i < partition_size then
      match read_from_partition p i 0 SAT_TAG_SIZE skip with
      | .error e => some (.error e)
      | .ok b =>
        let tag := beU32 (b.getD 0 0) (b.getD 1 0) (b.getD 2 0) (b.getD 3 0)
        if tag = SAT_START_BLOCK_TAG then
          match read_sat_table p partition_size block_size skip i bitmap
              bitmap_size with
          | none => none
          | some (code, _, _, bm) =>
            if code ≠ SLINGA_SUCCESS then some (.error code)
            else
              walk_partition_bitmap_loop p partition_size block_size skip
                bitmap_size (i + block_size) bm fuel
        else
          walk_partition_bitmap_loop p partition_size block_size skip
            bitmap_size (i + block_size) bitmap fuel
    else some (.ok bitmap)

/-- `walk_partition_bitmap` (sat.c:1171). -/
def walk_partition_bitmap (bitmap : List Nat) (bitmap_size : Nat)
    (p : List Nat) (partition_size block_size skip : Nat) :
    Option (Except SLINGA_ERROR (List Nat)) :=
  if bitmap_size = 0 then some (.error SLINGA_INVALID_PARAMETER)
  else if partition_size = 0 ∨ block_size = 0 then
    some (.error SLINGA_INVALID_PARAMETER)
  else if partition_size < block_size ∨ partition_size % block_size ≠ 0 then
    some (.error SLINGA_INVALID_PARAMETER)
  else
    match set_bitmap 0 bitmap bitmap_size with
    | .error e => some (.error e)
    | .ok bm0 =>
      match set_bitmap 1 bm0 bitmap_size with
      | .error e => some (.error e)
      | .ok bm1 =>
        walk_partition_bitmap_loop p partition_size block_size skip bitmap_size
          (2 * block_size) bm1 (partition_size + 1)

/-! ## SAT writer (sat.c:1780-2114, sat.c:238) -/

/-- `write_header` (sat.c:1780). -/
def write_header (save_start_block : Nat) (size : Nat)
    (metadata : SAVE_METADATA) (p : List Nat)
    (partition_size block_size skip : Nat) : Except SLINGA_ERROR (List Nat) :=
  -- `!filename || !size || !metadata`: only the size check is modelable;
  -- note the C stores `metadata->savename`, not `filename`
  if size = 0 then .error SLINGA_INVALID_PARAMETER
  else if partition_size = 0 ∨ block_size = 0 then .error SLINGA_INVALID_PARAMETER
  else
    let header := { metadata_to_header metadata with data_size := size }
    match convert_block_index_to_address save_start_block partition_size
        block_size skip with
    | .error e => .error e
    | .ok save_start =>
      write_to_partition p save_start 0 (headerBytes header)
        SAT_START_BLOCK_HEADER_SIZE skip

/-- The inner `for(; offset < adjusted_block_size; offset += 2)` loop of
`write_block_indexes` (sat.c:1930-1970).  Returns
`(p, offset, indexes_written, highest_index_written)` at loop exit. -/
def wbi_entry_loop (bitmap : List Nat) (bitmap_size num_blocks : Nat)
    (adjusted_block_size skip cur_block_address : Nat)
    (offset indexes_written highest_index_written : Nat) (p : List Nat) :
    Nat → Except SLINGA_ERROR (List Nat × Nat × Nat × Nat)
  | 0 => .ok (p, offset, indexes_written, highest_index_written)
  | fuel + 1 =>
    if offset < adjusted_block_size then
      let indexes_written := indexes_written + 1
      let pick : Except SLINGA_ERROR (Nat × Nat) :=
        if indexes_written = num_blocks then .ok (0, highest_index_written)
        else
          match get_next_block_bitmap highest_index_written bitmap bitmap_size with
          | .error e => .error e
          | .ok next_sat_block =>
            -- `index = (unsigned short)next_sat_block`
            .ok (next_sat_block % 65536, next_sat_block % 65536)
      match pick with
      | .error e => .error e
      | .ok (index, highest_index_written) =>
        match write_to_partition p cur_block_address offset (u16Bytes index) 2 skip with
        | .error e => .error e
        | .ok p =>
          if num_blocks ≤ indexes_written then
            .ok (p, offset + 2, indexes_written, highest_index_written)  -- `break`
          else
            wbi_entry_loop bitmap bitmap_size num_blocks adjusted_block_size skip
              cur_block_address (offset + 2) indexes_written
              highest_index_written p fuel
    else .ok (p, offset, indexes_written, highest_index_written)

/-- The outer `while(indexes_written < num_blocks)` loop of
`write_block_indexes` (sat.c:1902-1982).  Returns `(p, cur_block_index,
offset)` at loop exit. -/
def wbi_outer_loop (bitmap : List Nat)
    (bitmap_size num_blocks adjusted_block_size : Nat)
    (partition_size block_size skip save_start_block : Nat)
    (cur_block_index offset indexes_written highest_index_written : Nat)
    (p : List Nat) : Nat → Option (Except SLINGA_ERROR (List Nat × Nat × Nat))
  | 0 => none
  | fuel + 1 =>
    if indexes_written < num_blocks then
      match convert_block_index_to_address cur_block_index partition_size
          block_size skip with
      | .error e => some (.error e)
      | .ok cur_block_address =>
        let step : Except SLINGA_ERROR (List Nat × Nat) :=
          if cur_block_index = save_start_block then
            .ok (p, SAT_START_BLOCK_HEADER_SIZE)
          else
            -- write the continuation tag 0x00000000 into the claimed block
            match memset_partition p cur_block_address 0 0 SAT_TAG_SIZE skip with
            | .error e => .error e
            | .ok p => .ok (p, SAT_TAG_SIZE)
        match step with
        | .error e => some (.error e)
        | .ok (p, offset) =>
          match wbi_entry_loop bitmap bitmap_size num_blocks adjusted_block_size
              skip cur_block_address offset indexes_written
              highest_index_written p (adjusted_block_size + 2) with
          | .error e => some (.error e)
          | .ok (p, offset, indexes_written, highest_index_written) =>
            if indexes_written < num_blocks then
              match get_next_block_bitmap cur_block_index bitmap bitmap_size with
              | .error e => some (.error e)
              | .ok next =>
                wbi_outer_loop bitmap bitmap_size num_blocks adjusted_block_size
                  partition_size block_size skip save_start_block next offset
                  indexes_written highest_index_written p fuel
            else
              wbi_outer_loop bitmap bitmap_size num_blocks adjusted_block_size
                partition_size block_size skip save_start_block cur_block_index
                offset indexes_written highest_index_written p fuel
    else some (.ok (p, cur_block_index, offset))

/-- `write_block_indexes` (sat.c:1848).  Returns
`(p, save_data_start_block, save_data_start_offset)`. -/
def write_block_indexes (save_start_block num_blocks : Nat)
    (bitmap : List Nat) (bitmap_size : Nat) (p : List Nat)
    (partition_size block_size skip : Nat) :
    Option (Except SLINGA_ERROR (List Nat × Nat × Nat)) :=
  if bitmap_size = 0 ∨ partition_size = 0 ∨ block_size = 0 then
    some (.error SLINGA_INVALID_PARAMETER)
  else if num_blocks = 0 then some (.error SLINGA_INVALID_PARAMETER)
  else
    let adjusted_block_size := if skip = 1 then block_size / 2 else block_size
    -- `offset = sizeof(SAT_START_BLOCK_HEADER)` before the loop
    match wbi_outer_loop bitmap bitmap_size num_blocks adjusted_block_size
        partition_size block_size skip save_start_block save_start_block
        SAT_START_BLOCK_HEADER_SIZE 0 save_start_block p
        (num_blocks + bitmap_size * 8 + 2) with
    | none => none
    | some (.error e) => some (.error e)
    | some (.ok (p, cur_block_index, offset)) =>
      -- edge case: the loop filled the current block exactly
      if offset = adjusted_block_size then
        match get_next_block_bitmap cur_block_index bitmap bitmap_size with
        | .error e => some (.error e)
        | .ok next => some (.ok (p, next, SAT_TAG_SIZE))
      else some (.ok (p, cur_block_index, offset))

/-- The `while(bytes_written < size)` loop of `write_data`
(sat.c:2069-2111).  Note the dead test `if(bytes_written <= size)` of the
source is reproduced: it is always true, so `get_next_block_bitmap` also
runs after the final block is written. -/
def write_data_loop (data : List Nat) (size : Nat) (bitmap : List Nat)
    (bitmap_size : Nat)
    (partition_size block_size skip adjusted_block_size : Nat)
    (save_data_start_block save_data_start_offset : Nat)
    (cur_block_index bytes_written : Nat) (p : List Nat) :
    Nat → Option (Except SLINGA_ERROR (List Nat))
  | 0 => none
  | fuel + 1 =>
    if bytes_written < size then
      match convert_block_index_to_address cur_block_index partition_size
          block_size skip with
      | .error e => some (.error e)
      | .ok cur_block_address =>
        let offset :=
          if cur_block_index = save_data_start_block then save_data_start_offset
          else SAT_TAG_SIZE
        let bytes_left := size - bytes_written
        -- LIBSLINGA_MIN(adjusted_block_size - offset, bytes_left)
        let bytes_to_write := min (adjusted_block_size - offset) bytes_left
        match write_to_partition p cur_block_address offset
            (data.drop bytes_written) bytes_to_write skip with
        | .error e => some (.error e)
        | .ok p =>
          let bytes_written := bytes_written + bytes_to_write
          if bytes_written ≤ size then
            match get_next_block_bitmap cur_block_index bitmap bitmap_size with
            | .error e => some (.error e)
            | .ok next =>
              write_data_loop data size bitmap bitmap_size partition_size
                block_size skip adjusted_block_size save_data_start_block
                save_data_start_offset next bytes_written p fuel
          else
            write_data_loop data size bitmap bitmap_size partition_size
              block_size skip adjusted_block_size save_data_start_block
              save_data_start_offset cur_block_index bytes_written p fuel
    else some (.ok p)

/-- `write_data` (sat.c:2018). -/
def write_data (save_data_start_block save_data_start_offset : Nat)
    (data : List Nat) (size : Nat) (bitmap : List Nat) (bitmap_size : Nat)
    (p : List Nat) (partition_size block_size skip : Nat) :
    Option (Except SLINGA_ERROR (List Nat)) :=
  if bitmap_size = 0 ∨ partition_size = 0 ∨ block_size = 0 ∨ size = 0 then
    some (.error SLINGA_INVALID_PARAMETER)
  else
    let adjusted_block_size := if skip = 1 then block_size / 2 else block_size
    write_data_loop data size bitmap bitmap_size partition_size block_size skip
      adjusted_block_size save_data_start_block save_data_start_offset
      save_data_start_block 0 p (size + bitmap_size * 8 + 2)

/-- `sat_write` (sat.c:238).  Returns the error code and the final
partition contents. -/
def sat_write (flags : Nat) (filename : List Nat)
    (save_metadata : SAVE_METADATA) (buffer : List Nat) (size : Nat)
    (p : List Nat) (partition_size block_size skip : Nat) :
    Option (SLINGA_ERROR × List Nat) :=
  if size = 0 then some (SLINGA_INVALID_PARAMETER, p)
  else if partition_size = 0 ∨ block_size = 0 then some (SLINGA_INVALID_PARAMETER, p)
  else if block_size % MIN_BLOCK_SIZE ≠ 0 then some (SLINGA_INVALID_PARAMETER, p)
  else if skip ≠ 0 ∧ skip ≠ 1 then some (SLINGA_INVALID_PARAMETER, p)
  else
    match find_save filename p partition_size block_size skip with
    | none => none
    | some found =>
      let deleteStep : Except SLINGA_ERROR (List Nat) :=
        match found with
        | .ok save_start =>
          if flags &&& OVERWRITE_EXISTING_SAVE = 0 then .error SLINGA_FILE_EXISTS
          else
            -- delete the save by overwriting the tag field with 0
            memset_partition p save_start 0 0 SAT_TAG_SIZE skip
        | .error _ => .ok p  -- the C ignores a failed lookup and continues
      match deleteStep with
      | .error e => some (e, p)
      | .ok p =>
        match calc_num_blocks size block_size skip with
        | none => none
        | some (.error e) => some (e, p)
        | some (.ok blocks_needed) =>
          match get_bitmap_size partition_size block_size SAT_MAX_BITMAP with
          | .error e => some (e, p)
          | .ok bitmap_size =>
            -- `memset(g_SAT_bitmap, 0, bitmap_size)`
            let bitmap0 := List.replicate bitmap_size 0
            match walk_partition_bitmap bitmap0 bitmap_size p partition_size
                block_size skip with
            | none => none
            | some (.error e) => some (e, p)
            | some (.ok bm1) =>
              match invert_bitmap bm1 bitmap_size with
              | .error e => some (e, p)
              | .ok bm2 =>
                match count_bitmap bm2 bitmap_size with
                | .error e => some (e, p)
                | .ok free_blocks =>
                  if free_blocks < blocks_needed then
                    some (SLINGA_NOT_ENOUGH_SPACE, p)
                  else
                    match get_next_block_bitmap 0 bm2 bitmap_size with
                    | .error e => some (e, p)
                    | .ok save_start_block =>
                      match write_header save_start_block size save_metadata p
                          partition_size block_size skip with
                      | .error e => some (e, p)
                      | .ok p =>
                        match write_block_indexes save_start_block blocks_needed
                            bm2 bitmap_size p partition_size block_size skip with
                        | none => none
                        | some (.error e) => some (e, p)
                        | some (.ok (p, sdb, sdo)) =>
                          match write_data sdb sdo buffer size bm2 bitmap_size p
                              partition_size block_size skip with
                          | none => none
                          | some (.error e) => some (e, p)
                          | some (.ok p) => some (SLINGA_SUCCESS, p)

/-! ## Format check (`sat_check_formatted`, sat.c:508) -/

/-- The signature-comparison loop of `sat_check_formatted`
(sat.c:547-561): `remaining` counts the lines left to check. -/
def check_format_loop (p : List Nat) (skip : Nat) :
    Nat → Nat → Except SLINGA_ERROR Unit
  | _, 0 => .ok ()
  | i, remaining + 1 =>
    match read_from_partition p 0 (i * BACKUP_RAM_FORMAT_STR_LEN)
        BACKUP_RAM_FORMAT_STR_LEN skip with
    | .error e => .error e
    | .ok bytes =>
      if bytes ≠ BACKUP_RAM_FORMAT_BYTES then .error SLINGA_SAT_UNFORMATTED
      else check_format_loop p skip (i + 1) remaining

/-- `sat_check_formatted` (sat.c:508). -/
def sat_check_formatted (p : List Nat) (partition_size block_size skip : Nat) :
    Except SLINGA_ERROR Unit :=
  if partition_size = 0 ∨ block_size = 0 then .error SLINGA_INVALID_PARAMETER
  else if block_size % MIN_BLOCK_SIZE ≠ 0 then .error SLINGA_INVALID_PARAMETER
  else if skip ≠ 0 ∧ skip ≠ 1 then .error SLINGA_INVALID_PARAMETER
  else if partition_size < block_size then .error SLINGA_INVALID_PARAMETER
  else
    let num_lines := block_size / BACKUP_RAM_FORMAT_STR_LEN
    let num_lines := if skip = 1 then num_lines / 2 else num_lines
    check_format_loop p skip 0 num_lines

/-! ## Action Replay layer (`src/devices/action_replay.c`, first version)

The file's first (current) version of `decompress_partition`
(action_replay.c:383) is the one embedded here; its parameter check tests
the local variables `dest` and `dest_size` that are initialized to
`NULL`/`0` a few lines above. -/

/-- `DEVICE_TYPE` from `devices.h`. -/
inductive DEVICE_TYPE where
  | DEVICE_INTERNAL
  | DEVICE_CARTRIDGE
  | DEVICE_SERIAL
  | DEVICE_RAM
  | DEVICE_CD
  | DEVICE_ACTION_REPLAY
  | DEVICE_SATIATOR_ODE
  | DEVICE_MODE_ODE
  deriving DecidableEq, Repr

/-- `PARTITION_INFO` handed from the device layer to the SAT core. -/
structure PARTITION_INFO where
  partition_buf : List Nat
  partition_size : Nat
  block_size : Nat
  skip_bytes : Nat
  deriving DecidableEq, Repr

def ACTION_REPLAY_SAVES_OFFSET : Nat := 0x20000
def ACTION_REPLAY_COMPRESSED_PARTITION_MAX_SIZE : Nat := 0x60000
def ACTION_REPLAY_UNCOMPRESSED_MAX_SIZE : Nat := 0x80000
def ACTION_REPLAY_BLOCK_SIZE : Nat := 64
def CARTRIDGE_RAM_BANK_SIZE : Nat := 0x80000
/-- `sizeof(RLE01_HEADER)`: 5 (magic) + 1 (key) + 4 (compressed_size). -/
def RLE01_HEADER_SIZE : Nat := 10
/-- The bytes of `RLE01_MAGIC` ("RLE01"). -/
def RLE01_MAGIC_BYTES : List Nat := [82, 76, 69, 48, 49]

/-- The `do { ... } while(1)` decode loop of `decompress_RLE01`
(action_replay.c:465-536).  `out` is the bytes written through `dest`
(`j = out.length + initial j`, tracked separately to mirror the
`bytes_needed` out-parameter).  The fuel covers the at most
`src_size + 1` iterations (`i` strictly increases). -/
def decompress_RLE01_loop (rle_key : Nat) (src : List Nat) (src_size : Nat)
    (i j : Nat) (out : List Nat) : Nat → Option (List Nat × Nat)
  | 0 => none
  | fuel + 1 =>
    let b := src.getD i 0
    let next : Nat × Nat × List Nat :=
      if b = rle_key then
        -- `count = (int)(char)src[i + 1] & 0xff`
        let count := src.getD (i + 1) 0 % 256
        if count = 0 then (i + 2, j + 1, out ++ [rle_key])
        else
          let val := src.getD (i + 2) 0
          (i + 3, j + count, out ++ List.replicate count val)
      else (i + 1, j + 1, out ++ [b])
    match next with
    | (i, j, out) =>
      if src_size ≤ i then some (out, j)
      else decompress_RLE01_loop rle_key src src_size i j out fuel

/-- `decompress_RLE01` (action_replay.c:451).  Returns the decompressed
bytes and the `bytes_needed` count (the two are produced identically
whether or not the C caller passed a `dest` buffer). -/
def decompress_RLE01 (rle_key : Nat) (src : List Nat) (src_size : Nat) :
    Option (List Nat × Nat) :=
  decompress_RLE01_loop rle_key src src_size 0 0 [] (src_size + 2)

/-- `decompress_partition` (action_replay.c:383, the file's current
version).  The locals `dest`/`dest_size` are initialized to `NULL`/`0`
and null-tested in the first parameter check, exactly as in the source;
everything after that check is unreachable but translated anyway. -/
def decompress_partition (src : List Nat) (src_size : Nat) :
    Option (SLINGA_ERROR × Option PARTITION_INFO) :=
  let dest : Option (List Nat) := none
  let dest_size : Nat := 0
  if src_size = 0 ∨ dest = none ∨ dest_size = 0 then
    some (SLINGA_INVALID_PARAMETER, none)
  else if src_size < RLE01_HEADER_SIZE then some (SLINGA_INVALID_PARAMETER, none)
  else
    let compression_magic := src.take 5
    let rle_key := src.getD 5 0
    let compressed_size := beU32 (src.getD 6 0) (src.getD 7 0) (src.getD 8 0) (src.getD 9 0)
    if compression_magic ≠ RLE01_MAGIC_BYTES then
      some (SLINGA_ACTION_REPLAY_UNSUPPORTED_COMPRESSION, none)
    else if src_size ≤ compressed_size ∨ compressed_size < RLE01_HEADER_SIZE then
      some (SLINGA_ACTION_REPLAY_CORRUPT_COMPRESSION_HEADER, none)
    else
      match decompress_RLE01 rle_key (src.drop RLE01_HEADER_SIZE)
          (compressed_size - RLE01_HEADER_SIZE) with
      | none => none
      | some (bytes, dest_size) =>
        if ACTION_REPLAY_UNCOMPRESSED_MAX_SIZE < dest_size then
          some (SLINGA_ACTION_REPLAY_PARTITION_TOO_LARGE, none)
        else
          -- `dest = CARTRIDGE_RAM_BANK_1; memset(dest, 0, CARTRIDGE_RAM_BANK_SIZE);`
          let dest := padTo CARTRIDGE_RAM_BANK_SIZE bytes
          some (SLINGA_SUCCESS, some
            { partition_buf := dest
            , partition_size := dest_size
            , block_size := ACTION_REPLAY_BLOCK_SIZE
            , skip_bytes := 0 })

/-- `ActionReplay_Read` (action_replay.c:290).  `cart` is the cartridge
memory window starting at `CARTRIDGE_MEMORY + ACTION_REPLAY_SAVES_OFFSET`;
`hasFilename`/`hasBuffer` model the nullness of the pointer arguments. -/
def ActionReplay_Read (device_type : DEVICE_TYPE) (cart : List Nat)
    (hasFilename : Bool) (filename : List Nat) (hasBuffer : Bool)
    (size : Nat) : Option SLINGA_ERROR :=
  if device_type ≠ DEVICE_TYPE.DEVICE_ACTION_REPLAY then
    some SLINGA_INVALID_DEVICE_TYPE
  else if hasFilename = false ∨ hasBuffer = false ∨ size = 0 then
    some SLINGA_INVALID_PARAMETER
  else
    match decompress_partition cart ACTION_REPLAY_COMPRESSED_PARTITION_MAX_SIZE with
    | none => none
    | some (code, pinfo) =>
      if code ≠ SLINGA_SUCCESS then some code
      else
        match pinfo with
        | none => some code
        | some pi =>
          match sat_read filename size pi.partition_buf pi.partition_size
              pi.block_size pi.skip_bytes with
          | none => none
          | some (c, _) => some c

/-- `ActionReplay_Stat` (action_replay.c:163).  The `BACKUP_STAT` filled
on the (unreachable) success path is not reproduced; only the result code
is returned. -/
def ActionReplay_Stat (device_type : DEVICE_TYPE) (cart : List Nat)
    (hasStat : Bool) : Option SLINGA_ERROR :=
  if device_type ≠ DEVICE_TYPE.DEVICE_ACTION_REPLAY then
    some SLINGA_INVALID_DEVICE_TYPE
  else if hasStat = false then some SLINGA_INVALID_PARAMETER
  else
    match decompress_partition cart ACTION_REPLAY_COMPRESSED_PARTITION_MAX_SIZE with
    | none => none
    | some (code, pinfo) =>
      if code ≠ SLINGA_SUCCESS then some code
      else
        match pinfo with
        | none => some code
        | some pi =>
          match sat_get_used_blocks pi.partition_buf pi.partition_size
              pi.block_size pi.skip_bytes with
          | none => none
          | some w => if w.code ≠ SLINGA_SUCCESS then some w.code
                      else some SLINGA_SUCCESS

/-- `ActionReplay_List` (action_replay.c:255). -/
def ActionReplay_List (device_type : DEVICE_TYPE) (cart : List Nat)
    (num_saves : Nat) : Option SLINGA_ERROR :=
  if device_type ≠ DEVICE_TYPE.DEVICE_ACTION_REPLAY then
    some SLINGA_INVALID_DEVICE_TYPE
  else
    match decompress_partition cart ACTION_REPLAY_COMPRESSED_PARTITION_MAX_SIZE with
    | none => none
    | some (code, pinfo) =>
      if code ≠ SLINGA_SUCCESS then some code
      else
        match pinfo with
        | none => some code
        | some pi =>
          match sat_list_saves pi.partition_buf pi.partition_size pi.block_size
              pi.skip_bytes num_saves with
          | none => none
          | some w => if w.code ≠ SLINGA_SUCCESS then some w.code
                      else some SLINGA_SUCCESS

/-- `ActionReplay_QueryFile` (action_replay.c:217). -/
def ActionReplay_QueryFile (device_type : DEVICE_TYPE) (cart : List Nat)
    (filename : List Nat) (hasSave : Bool) : Option SLINGA_ERROR :=
  if device_type ≠ DEVICE_TYPE.DEVICE_ACTION_REPLAY then
    some SLINGA_INVALID_DEVICE_TYPE
  else if hasSave = false then some SLINGA_INVALID_PARAMETER
  else
    match decompress_partition cart ACTION_REPLAY_COMPRESSED_PARTITION_MAX_SIZE with
    | none => none
    | some (code, pinfo) =>
      if code ≠ SLINGA_SUCCESS then some code
      else
        match pinfo with
        | none => some code
        | some pi =>
          match sat_query_file filename pi.partition_buf pi.partition_size
              pi.block_size pi.skip_bytes with
          | none => none
          | some (c, _) => some c

/-! ## Claim-side definitions -/

/-- `ceil(a / b)` on naturals, as the specification writes it. -/
def ceilDiv (a b : Nat) : Nat := (a + b - 1) / b

/-- The physical byte positions that the 4-byte tag field of the start
block at byte offset `save_start` occupies (`skip_bytes = 1` stores
logical bytes at odd physical offsets). -/
def isTagByte (skip save_start i : Nat) : Bool :=
  if skip = 0 then decide (save_start ≤ i ∧ i < save_start + SAT_TAG_SIZE)
  else decide (i = save_start + 1 ∨ i = save_start + 3 ∨ i = save_start + 5 ∨
    i = save_start + 7)

/-! ## Concrete partitions used to settle the claims

All of them use `block_size = 64`, `skip_bytes = 0` and a partition of 8
blocks (512 bytes); blocks 0 and 1 are reserved, so 6 blocks are
allocatable. -/

/-- Block 0 of a formatted partition: 4 copies of "BackUpRam Format". -/
def formatBlock : List Nat :=
  BACKUP_RAM_FORMAT_BYTES ++ BACKUP_RAM_FORMAT_BYTES ++
    BACKUP_RAM_FORMAT_BYTES ++ BACKUP_RAM_FORMAT_BYTES

/-- A freshly formatted, empty 8-block partition. -/
def partitionEmpty : List Nat := formatBlock ++ List.replicate 448 0

/-- A start block for a save named "A" with payload size `ds` whose index
chain (and anything after it) is the byte list `cb`. -/
def saveBlockA (ds : Nat) (cb : List Nat) : List Nat :=
  [0x80, 0, 0, 0] ++ ([65] ++ List.replicate 10 0) ++ [0] ++
    List.replicate 10 0 ++ [0, 0, 0, 0] ++ u32Bytes ds ++ cb ++
    List.replicate (64 - 34 - cb.length) 0

/-- Like `saveBlockA` but named "B". -/
def saveBlockB (ds : Nat) (cb : List Nat) : List Nat :=
  [0x80, 0, 0, 0] ++ ([66] ++ List.replicate 10 0) ++ [0] ++
    List.replicate 10 0 ++ [0, 0, 0, 0] ++ u32Bytes ds ++ cb ++
    List.replicate (64 - 34 - cb.length) 0

/-- Metadata record for a save named "A". -/
def metadataA : SAVE_METADATA :=
  { filename := [], savename := [65], comment := [], language := 0
  , timestamp := 0, data_size := 0, block_size := 0 }

/-- Save "A", 100 data bytes (3 blocks), whose first chain entry is the
block index 2 — equal to the start block's own index, i.e. out of order. -/
def partitionOutOfOrder : List Nat :=
  formatBlock ++ List.replicate 64 0 ++ saveBlockA 100 [0, 2] ++
    List.replicate 320 0

/-- Save "A", 100 data bytes (3 blocks by `calc_num_blocks`), whose chain
terminates immediately: only 1 block is actually reachable. -/
def partitionShortChain : List Nat :=
  formatBlock ++ List.replicate 64 0 ++ saveBlockA 100 [0, 0] ++
    List.replicate 320 0

/-- Two well-formed one-block saves "A" and "B" (10 bytes each). -/
def partitionTwoSaves : List Nat :=
  formatBlock ++ List.replicate 64 0 ++ saveBlockA 10 [0, 0] ++
    saveBlockB 10 [0, 0] ++ List.replicate 256 0

/-- One well-formed save "A" of 10 bytes `1..10` stored at block 2
(terminator at offset 34, data at offset 36). -/
def partitionOneSave : List Nat :=
  formatBlock ++ List.replicate 64 0 ++
    saveBlockA 10 ([0, 0] ++ (List.range 10).map (fun i => i + 1)) ++
    List.replicate 320 0

deriving instance DecidableEq for Except

/-! # Claims -/

set_option maxRecDepth 1000000

/-- C1.  The round-trip claim fails on the code: on a formatted, empty
8-block partition (512 bytes, block size 64, a valid nonzero multiple of
64), a 316-byte payload needs exactly the 6 allocatable blocks
(`calc_num_blocks` = 6 = free block count, so the partition has enough
free blocks), yet `sat_write` fails with `SLINGA_NOT_FOUND`: after
writing the final data block, `write_data`'s dead test
`if(bytes_written <= size)` (sat.c:2102, always true) demands yet another
free block from the bitmap.  The conjuncts establish, in order: the
partition is formatted; the calculator asks for 6 blocks; the busy-block
walk, inversion and count yield exactly 6 free blocks; and the write
nevertheless fails with `SLINGA_NOT_FOUND`. -/
theorem sat_write_exact_fit_fails :
    sat_check_formatted partitionEmpty 512 64 0 = .ok () ∧
    calc_num_blocks 316 64 0 = some (.ok 6) ∧
    walk_partition_bitmap (List.replicate 1 0) 1 partitionEmpty 512 64 0 =
      some (.ok [3]) ∧
    invert_bitmap [3] 1 = .ok [252] ∧
    count_bitmap [252] 1 = .ok 6 ∧
    (sat_write 0 [65] metadataA (List.replicate 316 7) 316 partitionEmpty
      512 64 0).map Prod.fst = some SLINGA_NOT_FOUND := by
  refine ⟨by decide, by decide, by decide, by decide, by decide, by decide⟩

/-- C3.  The chain parser `read_sat_table_from_block` does detect the
out-of-order entry (second conjunct), but the public read path returns
`SLINGA_SAT_INVALID_PARTITION`, not `SLINGA_SAT_BLOCKS_OUT_OF_ORDER`:
the error is discarded by the condition
`result == SLINGA_SUCCESS && result != SLINGA_MORE_DATA_AVAILABLE`
(sat.c:1371), which never matches an error code. -/
theorem sat_read_out_of_order_error_lost :
    (sat_read [65] 100 partitionOutOfOrder 512 64 0).map Prod.fst =
      some SLINGA_SAT_INVALID_PARTITION ∧
    (read_sat_table_from_block 2
      { bitmap := [4], start_data_block := 0, written_sat_entries := 1 }
      1 partitionOutOfOrder 512 64 0 2).fst = SLINGA_SAT_BLOCKS_OUT_OF_ORDER := by
  refine ⟨by decide, by decide⟩

/-- C4.  `read_sat_table` can return success although the bitmap
population count (1) differs from the computed block count (3): the
terminator-found path returns at sat.c:1373 before the population check
at sat.c:1398 is reached.  The save of `partitionShortChain` declares 100
data bytes (3 blocks) but its chain ends immediately. -/
theorem read_sat_table_success_despite_count_mismatch :
    read_sat_table partitionShortChain 512 64 0 128 (List.replicate 1 0) 1 =
      some (SLINGA_SUCCESS, 2, 2, [4]) ∧
    count_bitmap [4] 1 = .ok 1 ∧
    calc_num_blocks 100 64 0 = some (.ok 3) ∧
    (1 : Nat) ≠ 3 := by
  refine ⟨by decide, by decide, by decide, by decide⟩

/-- C5 counterexample.  The 4-byte stream `[0xAA, 0xAA, 0x03, 0x42]` with
key `0xAA` does NOT decode to `[0x42, 0x42, 0x42]`: the second `0xAA` is
the count byte (170), so the decoder emits 170 copies of `0x03` followed
by the literal `0x42` — 171 bytes. -/
theorem rle_claim_stream_decodes_differently :
    decompress_RLE01 0xAA [0xAA, 0xAA, 0x03, 0x42] 4 =
      some (List.replicate 170 3 ++ [0x42], 171) ∧
    decompress_RLE01 0xAA [0xAA, 0xAA, 0x03, 0x42] 4 ≠
      some ([0x42, 0x42, 0x42], 3) := by
  refine ⟨by decide, by decide⟩

/-- C5 as amended: the stream encoding 3 repeats of `0x42` under key
`0xAA` is the 3-byte `[0xAA, 0x03, 0x42]` (key, count, value), and the
decompressor maps it to exactly `[0x42, 0x42, 0x42]`. -/
theorem rle_three_repeats :
    decompress_RLE01 0xAA [0xAA, 0x03, 0x42] 3 = some ([0x42, 0x42, 0x42], 3) := by
  decide

/-- C6.  With two saves on the partition and a one-element `saves` array,
`sat_list_saves` returns `SLINGA_BUFFER_TOO_SMALL` but never writes the
`saves_available` out-parameter (the `return` at sat.c:1130 precedes the
assignment at sat.c:1148; the `break` after it is dead code), so the
caller does not learn the count found so far.  The second conjunct shows
the same partition holds 2 saves when capacity suffices. -/
theorem sat_list_saves_too_small_drops_count :
    (sat_list_saves partitionTwoSaves 512 64 0 1).map
        (fun w => (w.code, w.saves_available)) =
      some (SLINGA_BUFFER_TOO_SMALL, none) ∧
    (sat_list_saves partitionTwoSaves 512 64 0 5).map
        (fun w => (w.code, w.saves_available)) =
      some (SLINGA_SUCCESS, some 2) := by
  refine ⟨by decide, by decide⟩

/-- C9.  `decompress_partition` (the current version in
`action_replay.c`) null-tests its own local variables `dest` and
`dest_size`, which are initialized to `NULL` and `0` just above the
check, so it returns `SLINGA_INVALID_PARAMETER` for every input; every
Action Replay read, stat, list and query-file operation that reaches the
decompression step therefore fails with `SLINGA_INVALID_PARAMETER`
regardless of the cartridge contents. -/
theorem action_replay_decompress_always_fails :
    (∀ src src_size, decompress_partition src src_size =
        some (SLINGA_INVALID_PARAMETER, none)) ∧
    (∀ cart fn sz, ActionReplay_Read DEVICE_TYPE.DEVICE_ACTION_REPLAY cart
        true fn true sz = some SLINGA_INVALID_PARAMETER) ∧
    (∀ cart, ActionReplay_Stat DEVICE_TYPE.DEVICE_ACTION_REPLAY cart true =
        some SLINGA_INVALID_PARAMETER) ∧
    (∀ cart n, ActionReplay_List DEVICE_TYPE.DEVICE_ACTION_REPLAY cart n =
        some SLINGA_INVALID_PARAMETER) ∧
    (∀ cart fn, ActionReplay_QueryFile DEVICE_TYPE.DEVICE_ACTION_REPLAY cart
        fn true = some SLINGA_INVALID_PARAMETER) := by
  have hd : ∀ src src_size, decompress_partition src src_size =
      some (SLINGA_INVALID_PARAMETER, none) := by
    intro src src_size
    simp [decompress_partition]
  refine ⟨hd, fun cart fn sz => ?_, fun cart => ?_, fun cart n => ?_,
    fun cart fn => ?_⟩
  · by_cases h : sz = 0 <;> simp [ActionReplay_Read, hd, h]
  · simp [ActionReplay_Stat, hd]
  · simp [ActionReplay_List, hd]
  · simp [ActionReplay_QueryFile, hd]

/-! ## Helper lemmas for the bitmap claims -/

theorem map_range_getD (g : Nat → Nat) :
    ∀ l : List Nat, (List.range l.length).map (fun i => g (l.getD i 0)) = l.map g
  | [] => rfl
  | a :: t => by
    rw [List.length_cons, List.range_succ_eq_map, List.map_cons, List.map_map]
    have : ((fun i => g ((a :: t).getD i 0)) ∘ Nat.succ) =
        (fun i => g (t.getD i 0)) := rfl
    rw [this, map_range_getD g t]
    rfl

theorem invert_bitmap_eq_map (bm : List Nat) (h : bm ≠ []) :
    invert_bitmap bm bm.length = .ok (bm.map (fun b => 255 - b % 256)) := by
  have hlen : bm.length ≠ 0 := by
    simpa [List.length_eq_zero] using h
  unfold invert_bitmap
  rw [if_neg hlen]
  congr 1
  apply List.ext_get
  · simp
  · intro n h1 h2
    have hn : n < bm.length := by simpa using h2
    rw [List.get_mapIdx bm _ n hn, if_pos hn]
    simp

theorem count_bitmap_eq_sum (bm : List Nat) (h : bm ≠ []) :
    count_bitmap bm bm.length = .ok ((bm.map countByte).sum) := by
  have hlen : bm.length ≠ 0 := by
    simpa [List.length_eq_zero] using h
  unfold count_bitmap
  rw [if_neg hlen]
  rw [map_range_getD countByte bm]

theorem countByte_add_invert (x : Nat) (h : x < 256) :
    countByte x + countByte (255 - x % 256) = 8 := by
  revert h
  revert x
  decide

theorem sum_count_invert :
    ∀ l : List Nat, (∀ x ∈ l, x < 256) →
      (l.map countByte).sum + (l.map (fun b => countByte (255 - b % 256))).sum =
        l.length * 8
  | [], _ => rfl
  | a :: t, h => by
    have ha : a < 256 := h a (List.mem_cons_self a t)
    have ht := sum_count_invert t (fun x hx => h x (List.mem_cons_of_mem a hx))
    simp only [List.map_cons, List.sum_cons, List.length_cons]
    have := countByte_add_invert a ha
    omega

/-- C8.  For every nonempty bitmap of bytes, inverting twice restores the
original contents, and the set-bit counts of a bitmap and its inversion
add up to `8 * bitmap_size`, the capacity in bits. -/
theorem bitmap_invert_involution_count (bm : List Nat) (h1 : bm ≠ [])
    (h2 : ∀ x ∈ bm, x < 256) :
    ∃ bm', invert_bitmap bm bm.length = .ok bm' ∧
      invert_bitmap bm' bm.length = .ok bm ∧
      ∃ c c', count_bitmap bm bm.length = .ok c ∧
        count_bitmap bm' bm.length = .ok c' ∧ c + c' = bm.length * 8 := by
  refine ⟨bm.map (fun b => 255 - b % 256), invert_bitmap_eq_map bm h1, ?_, ?_⟩
  · have hlen : (bm.map (fun b : Nat => 255 - b % 256)).length = bm.length :=
      List.length_map _ _
    have hne : bm.map (fun b : Nat => 255 - b % 256) ≠ [] := by
      intro hc
      exact h1 (List.map_eq_nil_iff.mp hc)
    have := invert_bitmap_eq_map (bm.map (fun b : Nat => 255 - b % 256)) hne
    rw [hlen] at this
    rw [this, List.map_map]
    congr 1
    have : ∀ x ∈ bm, ((fun b : Nat => 255 - b % 256) ∘
        (fun b : Nat => 255 - b % 256)) x = id x := by
      intro x hx
      have hlt := h2 x hx
      simp only [Function.comp_apply, id_eq]
      omega
    rw [List.map_congr_left this, List.map_id]
  · refine ⟨(bm.map countByte).sum,
      ((bm.map (fun b : Nat => 255 - b % 256)).map countByte).sum,
      count_bitmap_eq_sum bm h1, ?_, ?_⟩
    · have hne : bm.map (fun b : Nat => 255 - b % 256) ≠ [] := by
        intro hc
        exact h1 (List.map_eq_nil_iff.mp hc)
      have := count_bitmap_eq_sum (bm.map (fun b : Nat => 255 - b % 256)) hne
      rwa [List.length_map] at this
    · rw [List.map_map]
      have := sum_count_invert bm h2
      simpa [Nat.mul_comm] using this

/-! ## Helper lemmas for the block-count calculator (C2) -/

/-- The loop body's `total / usable + (total % usable != 0)` is the
ceiling division the spec describes. -/
theorem div_ite_eq_ceilDiv (a b : Nat) (hb : 0 < b) :
    a / b + (if a % b ≠ 0 then 1 else 0) = ceilDiv a b := by
  unfold ceilDiv
  by_cases h : a % b = 0
  · obtain ⟨k, hk⟩ := Nat.dvd_of_mod_eq_zero h
    subst hk
    rw [if_neg (by simp_all)]
    have h1 : b * k + b - 1 = b * k + (b - 1) := by omega
    rw [h1, Nat.mul_add_div hb, Nat.mul_div_cancel_left k hb,
      Nat.div_eq_of_lt (show b - 1 < b by omega)]
  · rw [if_pos h]
    have hd := Nat.div_add_mod a b
    have hr1 : 1 ≤ a % b := Nat.one_le_iff_ne_zero.mpr h
    have hr2 : a % b < b := Nat.mod_lt a hb
    have h1 : a + b - 1 = b * (a / b) + (a % b + b - 1) := by omega
    rw [h1, Nat.mul_add_div hb]
    have h2 : (a % b + b - 1) / b = 1 :=
      Nat.div_eq_of_lt_le (by omega) (by omega)
    omega

/-- The single-step map of the `calc_num_blocks` iteration, in exact
arithmetic: `n ↦ ceil((fixed + 2*(n+1)) / u)`. -/
theorem ceil_step_mono (fixed u a b : Nat) (h : a ≤ b) :
    ceilDiv (fixed + (a + 1) * 2) u ≤ ceilDiv (fixed + (b + 1) * 2) u := by
  unfold ceilDiv
  exact Nat.div_le_div_right (by omega)

/-- Termination and correctness of the `do/while` loop of
`calc_num_blocks`: starting below a point `B` that the iteration maps
below itself, and with the arithmetic staying below `2^32`, the loop
reaches a fixed point of the exact iteration within `B + 1 - n` steps. -/
theorem calc_loop_reaches_fixed_point (fixed u B : Nat) (hu : 0 < u)
    (hov : fixed + (B + 1) * 2 < UINT32_MOD)
    (hfB : ceilDiv (fixed + (B + 1) * 2) u ≤ B) :
    ∀ fuel n, n ≤ ceilDiv (fixed + (n + 1) * 2) u → n ≤ B →
      B + 1 ≤ fuel + n →
      ∃ m, calc_num_blocks_loop fixed u fuel n = some m ∧
        m = ceilDiv (fixed + (m + 1) * 2) u
  | 0, n, _, hnB, hfuel => by omega
  | fuel + 1, n, hinv, hnB, hfuel => by
    have htot : (fixed + (n + 1) * 2) % UINT32_MOD = fixed + (n + 1) * 2 :=
      Nat.mod_eq_of_lt (by omega)
    have hstep : (fixed + (n + 1) * 2) % UINT32_MOD / u +
        (if (fixed + (n + 1) * 2) % UINT32_MOD % u ≠ 0 then 1 else 0) =
        ceilDiv (fixed + (n + 1) * 2) u := by
      rw [htot]
      exact div_ite_eq_ceilDiv _ u hu
    rw [calc_num_blocks_loop]
    simp only [hstep]
    by_cases heq : n = ceilDiv (fixed + (n + 1) * 2) u
    · rw [if_pos heq]
      exact ⟨n, rfl, heq⟩
    · rw [if_neg heq]
      have hlt : n < ceilDiv (fixed + (n + 1) * 2) u :=
        Nat.lt_of_le_of_ne hinv heq
      have hinv' : ceilDiv (fixed + (n + 1) * 2) u ≤
          ceilDiv (fixed + (ceilDiv (fixed + (n + 1) * 2) u + 1) * 2) u :=
        ceil_step_mono fixed u n _ (Nat.le_of_lt hlt)
      have hB' : ceilDiv (fixed + (n + 1) * 2) u ≤ B :=
        Nat.le_trans (ceil_step_mono fixed u n B hnB) hfB
      exact calc_loop_reaches_fixed_point fixed u B hu hov hfB fuel
        (ceilDiv (fixed + (n + 1) * 2) u) hinv' hB' (by omega)

/-- C2 counterexample.  For `save_size = 2^32 - 1` (a legal
`unsigned int` value), `calc_num_blocks` returns 1 — the 32-bit sum
`header_size - 4 + save_size` wraps to 29 — but the spec's exact
fixed-point equation gives `ceil((2^32 + 33) / 60) ≠ 1`, so the claim as
stated over every `save_size ≥ 1` fails. -/
theorem calc_num_blocks_overflow_counterexample :
    calc_num_blocks (UINT32_MOD - 1) 64 0 = some (.ok 1) ∧
    (1 : Nat) ≠ ceilDiv (SAT_START_BLOCK_HEADER_SIZE - SAT_TAG_SIZE +
      (UINT32_MOD - 1) + 2 * (1 + 1)) (64 - SAT_TAG_SIZE) := by
  refine ⟨by decide, by decide⟩

/-- C2 as amended: for every `save_size` between 1 and `2^30` (so that
the 32-bit byte-count arithmetic cannot wrap), every `skip_bytes` in
`{0, 1}` and every block size below `2^32` whose (possibly halved)
adjusted value is a nonzero multiple of 64, `calc_num_blocks` succeeds
and returns a fixed point `n` of the spec's iteration
`n = ceil((header_size - 4 + save_size + 2*(n+1)) / (adjusted - 4))`;
in particular it returns 1 for a 10-byte payload with block size 64 and
`skip_bytes = 0`. -/
theorem calc_num_blocks_fixed_point (save_size block_size skip_bytes : Nat)
    (hs1 : 1 ≤ save_size) (hs2 : save_size ≤ 2 ^ 30)
    (hbs32 : block_size < UINT32_MOD)
    (hskip : skip_bytes = 0 ∨ skip_bytes = 1)
    (hadj : (if skip_bytes = 1 then block_size / 2 else block_size) %
      MIN_BLOCK_SIZE = 0)
    (hadj0 : (if skip_bytes = 1 then block_size / 2 else block_size) ≠ 0) :
    (∃ n, calc_num_blocks save_size block_size skip_bytes = some (.ok n) ∧
      n = ceilDiv (SAT_START_BLOCK_HEADER_SIZE - SAT_TAG_SIZE + save_size +
        2 * (n + 1))
        ((if skip_bytes = 1 then block_size / 2 else block_size) -
          SAT_TAG_SIZE)) ∧
    calc_num_blocks 10 64 0 = some (.ok 1) := by
  refine ⟨?_, by decide⟩
  set adj := if skip_bytes = 1 then block_size / 2 else block_size with hadjdef
  have hadj64 : 64 ≤ adj := by
    have hdvd : 64 ∣ adj := Nat.dvd_of_mod_eq_zero hadj
    exact Nat.le_of_dvd (Nat.pos_of_ne_zero hadj0) hdvd
  have hadjle : adj ≤ block_size := by
    rw [hadjdef]
    split
    · exact Nat.div_le_self _ _
    · exact Nat.le_refl _
  have hadjlt : adj < UINT32_MOD := Nat.lt_of_le_of_lt hadjle hbs32
  have hbs0 : block_size ≠ 0 := by
    intro hz
    apply hadj0
    rw [hadjdef, hz]
    split <;> rfl
  have hu : 0 < adj - SAT_TAG_SIZE := by
    simp only [SAT_TAG_SIZE]
    omega
  -- evaluate the wrapper down to the loop call
  have hfixed : (SAT_START_BLOCK_HEADER_SIZE - SAT_TAG_SIZE + save_size) %
      UINT32_MOD = 30 + save_size := by
    simp only [SAT_START_BLOCK_HEADER_SIZE, SAT_TAG_SIZE, UINT32_MOD]
    omega
  have husable : (adj + UINT32_MOD - SAT_TAG_SIZE) % UINT32_MOD = adj - SAT_TAG_SIZE := by
    have h1 : adj + UINT32_MOD - SAT_TAG_SIZE = (adj - SAT_TAG_SIZE) + UINT32_MOD := by
      simp only [SAT_TAG_SIZE]
      omega
    rw [h1, Nat.add_mod_right, Nat.mod_eq_of_lt (by omega)]
  have hfB : ceilDiv (30 + save_size + (30 + save_size + 1) * 2)
      (adj - SAT_TAG_SIZE) ≤ 30 + save_size := by
    -- the bound maps below itself: ceil((3B + 2)/u) ≤ B for u ≥ 60
    unfold ceilDiv
    rw [Nat.div_le_iff_le_mul_add_pred hu]
    have h4 : 4 ≤ adj - SAT_TAG_SIZE := by
      simp only [SAT_TAG_SIZE]; omega
    have h5 : 4 * (30 + save_size) ≤ (adj - SAT_TAG_SIZE) * (30 + save_size) :=
      Nat.mul_le_mul_right _ h4
    omega
  have hloop := calc_loop_reaches_fixed_point (30 + save_size)
    (adj - SAT_TAG_SIZE) (30 + save_size) hu
    (by simp only [UINT32_MOD]; omega)
    hfB (30 + save_size + 64) 0 (Nat.zero_le _) (Nat.zero_le _) (by omega)
  obtain ⟨m, hm, hfix⟩ := hloop
  refine ⟨m, ?_, ?_⟩
  · unfold calc_num_blocks
    rw [if_neg (by omega), if_neg (by rcases hskip with h | h <;> simp [h])]
    simp only [← hadjdef]
    simp only [hfixed, husable, hm]
    rw [if_neg (show ¬adj % MIN_BLOCK_SIZE ≠ 0 by simp [hadj])]
  · have harg : SAT_START_BLOCK_HEADER_SIZE - SAT_TAG_SIZE + save_size +
        2 * (m + 1) = 30 + save_size + (m + 1) * 2 := by
      simp only [SAT_START_BLOCK_HEADER_SIZE, SAT_TAG_SIZE]
      omega
    rw [harg]
    exact hfix

/-- C2 witness: payload 10, block size 64, `skip_bytes = 0`. -/
theorem calc_num_blocks_fixed_point_witness :
    (∃ n, calc_num_blocks 10 64 0 = some (.ok n) ∧
      n = ceilDiv (SAT_START_BLOCK_HEADER_SIZE - SAT_TAG_SIZE + 10 +
        2 * (n + 1)) ((if (0 : Nat) = 1 then 64 / 2 else 64) - SAT_TAG_SIZE)) ∧
    calc_num_blocks 10 64 0 = some (.ok 1) :=
  calc_num_blocks_fixed_point 10 64 0 (by decide) (by decide) (by decide)
    (Or.inl rfl) (by decide) (by decide)

/-! ## Helper lemmas for the overwrite-deletion claim (C7) -/

theorem getD_set (l : List Nat) (i j v : Nat) :
    (l.set i v).getD j 0 = if i = j ∧ j < l.length then v else l.getD j 0 := by
  by_cases h : i = j ∧ j < l.length
  · obtain ⟨h1, h2⟩ := h
    subst h1
    rw [if_pos ⟨rfl, h2⟩, List.getD_eq_getElem?_getD,
      List.getElem?_set_eq_of_lt v h2, Option.getD_some]
  · rw [if_neg h]
    by_cases hij : i = j
    · subst hij
      have hlen : l.length ≤ i := by omega
      rw [List.set_eq_of_length_le hlen]
    · rw [List.getD_eq_getElem?_getD, List.getElem?_set_ne hij,
        ← List.getD_eq_getElem?_getD]

/-- C7.  If a save named `filename` exists on the partition (its start
block at byte offset `a`), then (1) `sat_write` without the
`OVERWRITE_EXISTING_SAVE` flag returns `SLINGA_FILE_EXISTS` with the
partition unchanged, and (2) the deletion step that `sat_write` performs
when the flag is set — `memset_partition(save_start, 0, 0, SAT_TAG_SIZE,
skip_bytes)` (sat.c:312) — zeroes exactly the physical bytes of the
4-byte tag field of that start block and leaves every other byte of the
partition unmodified. -/
theorem sat_write_no_overwrite_and_delete_frame
    (p : List Nat) (partition_size block_size skip : Nat)
    (filename : List Nat) (a : Nat)
    (hps : partition_size ≠ 0) (hbs : block_size ≠ 0)
    (hmod : block_size % MIN_BLOCK_SIZE = 0) (hskip : skip = 0 ∨ skip = 1)
    (hfind : find_save filename p partition_size block_size skip = some (.ok a)) :
    (∀ flags metadata buffer size, size ≠ 0 →
      flags &&& OVERWRITE_EXISTING_SAVE = 0 →
      sat_write flags filename metadata buffer size p partition_size
        block_size skip = some (SLINGA_FILE_EXISTS, p)) ∧
    (∃ p', memset_partition p a 0 0 SAT_TAG_SIZE skip = .ok p' ∧
      p'.length = p.length ∧
      ∀ i, i < p.length →
        p'.getD i 0 = if isTagByte skip a i then 0 else p.getD i 0) := by
  constructor
  · intro flags metadata buffer size hsz hflag
    unfold sat_write
    rw [if_neg hsz, if_neg (by omega),
      if_neg (by simpa using hmod),
      if_neg (by rcases hskip with h | h <;> simp [h]), hfind]
    simp only [hflag, if_pos rfl]
    rfl
  · rcases hskip with h | h <;> subst h
    · refine ⟨(List.range SAT_TAG_SIZE).foldl
        (fun acc i => acc.set (skipPos a 0 i 0) 0) p, ?_, ?_, ?_⟩
      · unfold memset_partition
        rw [if_neg (by decide), if_neg (by decide)]
      · show ((((p.set (skipPos a 0 0 0) 0).set (skipPos a 0 1 0) 0).set
          (skipPos a 0 2 0) 0).set (skipPos a 0 3 0) 0).length = p.length
        simp [List.length_set]
      · intro i hi
        show ((((p.set (skipPos a 0 0 0) 0).set (skipPos a 0 1 0) 0).set
          (skipPos a 0 2 0) 0).set (skipPos a 0 3 0) 0).getD i 0 = _
        simp only [skipPos, if_pos rfl]
        rw [getD_set, getD_set, getD_set, getD_set]
        simp only [List.length_set, isTagByte, if_pos rfl, SAT_TAG_SIZE]
        split_ifs <;> simp_all <;> omega
    · refine ⟨(List.range SAT_TAG_SIZE).foldl
        (fun acc i => acc.set (skipPos a 0 i 1) 0) p, ?_, ?_, ?_⟩
      · unfold memset_partition
        rw [if_neg (by decide), if_neg (by decide)]
      · show ((((p.set (skipPos a 0 0 1) 0).set (skipPos a 0 1 1) 0).set
          (skipPos a 0 2 1) 0).set (skipPos a 0 3 1) 0).length = p.length
        simp [List.length_set]
      · intro i hi
        show ((((p.set (skipPos a 0 0 1) 0).set (skipPos a 0 1 1) 0).set
          (skipPos a 0 2 1) 0).set (skipPos a 0 3 1) 0).getD i 0 = _
        simp only [skipPos, if_neg (by omega : ¬(1 : Nat) = 0)]
        rw [getD_set, getD_set, getD_set, getD_set]
        simp only [List.length_set, isTagByte,
          if_neg (by omega : ¬(1 : Nat) = 0)]
        split_ifs <;> simp_all <;> omega

/-- C7 witness: the partition holding the single save "A" at byte offset
128 with `skip_bytes = 0`. -/
theorem sat_write_no_overwrite_and_delete_frame_witness :
    (∀ flags metadata buffer size, size ≠ 0 →
      flags &&& OVERWRITE_EXISTING_SAVE = 0 →
      sat_write flags [65] metadata buffer size partitionOneSave 512 64 0 =
        some (SLINGA_FILE_EXISTS, partitionOneSave)) ∧
    (∃ p', memset_partition partitionOneSave 128 0 0 SAT_TAG_SIZE 0 = .ok p' ∧
      p'.length = partitionOneSave.length ∧
      ∀ i, i < partitionOneSave.length →
        p'.getD i 0 = if isTagByte 0 128 i then 0
          else partitionOneSave.getD i 0) :=
  sat_write_no_overwrite_and_delete_frame partitionOneSave 512 64 0 [65] 128
    (by decide) (by decide) (by decide) (Or.inl rfl) (by decide)

/-! ## Helper lemmas for the buffer-too-small claim (C10)

`SLINGA_BUFFER_TOO_SMALL` is returned by no statement of the SAT read
path except the `save_size < size` check in `read_save_and_metadata`
(sat.c:996); the following lemmas record that fact function by
function. -/

theorem read_from_partition_error {p : List Nat} {b o s k : Nat}
    {e : SLINGA_ERROR} (h : read_from_partition p b o s k = .error e) :
    e = SLINGA_INVALID_PARAMETER := by
  unfold read_from_partition at h
  split_ifs at h <;> simp_all

theorem convert_block_index_to_address_error {bi ps bs k : Nat}
    {e : SLINGA_ERROR} (h : convert_block_index_to_address bi ps bs k = .error e) :
    e = SLINGA_INVALID_PARAMETER := by
  unfold convert_block_index_to_address at h
  split_ifs at h <;> simp_all

theorem convert_address_to_block_index_error {a ps bs : Nat}
    {e : SLINGA_ERROR} (h : convert_address_to_block_index a ps bs = .error e) :
    e = SLINGA_INVALID_PARAMETER := by
  unfold convert_address_to_block_index at h
  split_ifs at h <;> simp_all

theorem set_bitmap_error {bi : Nat} {bm : List Nat} {sz : Nat}
    {e : SLINGA_ERROR} (h : set_bitmap bi bm sz = .error e) :
    e = SLINGA_INVALID_PARAMETER := by
  unfold set_bitmap at h
  split_ifs at h <;> simp_all

theorem count_bitmap_error {bm : List Nat} {sz : Nat} {e : SLINGA_ERROR}
    (h : count_bitmap bm sz = .error e) : e = SLINGA_INVALID_PARAMETER := by
  unfold count_bitmap at h
  split_ifs at h <;> simp_all

theorem get_bitmap_size_error {ps bs mx : Nat} {e : SLINGA_ERROR}
    (h : get_bitmap_size ps bs mx = .error e) : e = SLINGA_INVALID_PARAMETER := by
  unfold get_bitmap_size at h
  split_ifs at h <;> simp_all

theorem get_next_block_bitmap_loop_error {bm : List Nat} {bits : Nat}
    {e : SLINGA_ERROR} :
    ∀ {fuel i : Nat}, get_next_block_bitmap_loop bm bits i fuel = .error e →
      e = SLINGA_NOT_FOUND := by
  intro fuel
  induction fuel with
  | zero =>
    intro i h
    unfold get_next_block_bitmap_loop at h
    exact (Except.error.inj h).symm
  | succ n ih =>
    intro i h
    unfold get_next_block_bitmap_loop at h
    by_cases h1 : i < bits
    · rw [if_pos h1] at h
      by_cases h2 : (bm.getD (i / 8) 0) &&& (1 <<< (i % 8)) ≠ 0
      · rw [if_pos h2] at h
        exact Except.noConfusion h
      · rw [if_neg h2] at h
        exact ih h
    · rw [if_neg h1] at h
      exact (Except.error.inj h).symm

theorem get_next_block_bitmap_error {bi : Nat} {bm : List Nat} {sz : Nat}
    {e : SLINGA_ERROR} (h : get_next_block_bitmap bi bm sz = .error e) :
    e = SLINGA_NOT_FOUND ∨ e = SLINGA_INVALID_PARAMETER := by
  unfold get_next_block_bitmap at h
  split_ifs at h
  · simp_all
  · exact Or.inl (get_next_block_bitmap_loop_error h)

theorem calc_num_blocks_some_error {s bs k : Nat} {e : SLINGA_ERROR}
    (h : calc_num_blocks s bs k = some (.error e)) :
    e = SLINGA_INVALID_PARAMETER := by
  unfold calc_num_blocks at h
  split_ifs at h <;> try simp_all
  all_goals
    rcases hm : calc_num_blocks_loop ((SAT_START_BLOCK_HEADER_SIZE -
        SAT_TAG_SIZE + s) % UINT32_MOD) _ _ 0 with _ | n <;>
      rw [hm] at h <;> split_ifs at h <;> simp_all

/-- C8 witness: the two-byte bitmap `[0xB2, 0x01]`. -/
theorem bitmap_invert_involution_count_witness :
    ∃ bm', invert_bitmap [178, 1] ([178, 1] : List Nat).length = .ok bm' ∧
      invert_bitmap bm' ([178, 1] : List Nat).length = .ok [178, 1] ∧
      ∃ c c', count_bitmap [178, 1] ([178, 1] : List Nat).length = .ok c ∧
        count_bitmap bm' ([178, 1] : List Nat).length = .ok c' ∧
        c + c' = ([178, 1] : List Nat).length * 8 :=
  bitmap_invert_involution_count [178, 1] (by decide) (by decide)


theorem sat_entry_loop_ne_bts (p : List Nat) (addr skip bi bs bsz : Nat) :
    ∀ (fuel sb : Nat) (st : SatTableState),
      (sat_entry_loop p addr skip bi bs bsz sb st fuel).fst ≠
        SLINGA_BUFFER_TOO_SMALL := by
  intro fuel
  induction fuel with
  | zero => intro sb st; simp [sat_entry_loop]
  | succ n ih =>
    intro sb st
    unfold sat_entry_loop
    split
    · split
      · next e heq =>
        have := read_from_partition_error heq
        subst this
        simp
      · next b heq =>
        simp only []
        split
        · simp
        · split
          · simp
          · split
            · next e heq2 =>
              have := set_bitmap_error heq2
              subst this
              simp
            · next bm heq2 => exact ih _ _
    · simp

theorem read_sat_table_from_block_ne_bts (bi : Nat) (st : SatTableState)
    (bsz : Nat) (p : List Nat) (ps bs skip sb : Nat) :
    (read_sat_table_from_block bi st bsz p ps bs skip sb).fst ≠
      SLINGA_BUFFER_TOO_SMALL := by
  unfold read_sat_table_from_block
  split
  · simp
  · split
    · simp
    · split
      · simp
      · split
        · next e heq =>
          have := convert_block_index_to_address_error heq
          subst this; simp
        · next a heq =>
          split
          · next e heq2 =>
            have := read_from_partition_error heq2
            subst this; simp
          · next hb heq2 =>
            simp only []
            split
            · next e heq3 =>
              split_ifs at heq3 <;>
                first
                | (simp only [Except.error.injEq] at heq3; subst heq3; simp)
                | simp at heq3
            · next sbyte heq3 =>
              exact sat_entry_loop_ne_bts _ _ _ _ _ _ _ _ _

theorem read_sat_table_loop_ne_bts (p : List Nat)
    (ps bs skip sb nsb bsz : Nat) :
    ∀ (fuel cur : Nat) (st : SatTableState) (r : SLINGA_ERROR × SatTableState),
      read_sat_table_loop p ps bs skip sb nsb bsz cur st fuel = some r →
      r.fst ≠ SLINGA_BUFFER_TOO_SMALL := by
  intro fuel
  induction fuel with
  | zero => intro cur st r h; simp [read_sat_table_loop] at h
  | succ n ih =>
    intro cur st r h
    unfold read_sat_table_loop at h
    split at h
    · simp at h; subst h; simp
    · simp only [] at h
      split at h
      · next hc =>
        simp at h
        subst h
        simp [hc.1]
      · split at h
        · split at h
          · next e heq2 =>
            have := count_bitmap_error heq2
            subst this
            simp at h
            subst h
            simp
          · next c heq2 =>
            split at h <;> simp at h <;> subst h <;> simp
        · next e h1 heq =>
          rcases get_next_block_bitmap_error heq with he | he <;> subst he <;>
            simp_all <;> subst h <;> simp
        · next nx heq => exact ih _ _ _ h

theorem read_sat_table_ne_bts (p : List Nat) (ps bs skip a : Nat)
    (bm0 : List Nat) (bsz : Nat) (r : SLINGA_ERROR × Nat × Nat × List Nat)
    (h : read_sat_table p ps bs skip a bm0 bsz = some r) :
    r.fst ≠ SLINGA_BUFFER_TOO_SMALL := by
  unfold read_sat_table at h
  split at h
  · simp at h; subst h; simp
  · split at h
    · simp at h; subst h; simp
    · split at h
      · simp at h; subst h; simp
      · split at h
        · next e heq =>
          have := read_from_partition_error heq
          subst this
          simp at h; subst h; simp
        · next hb heq =>
          simp only [] at h
          split at h
          · simp at h
          · next e heq2 =>
            have := calc_num_blocks_some_error heq2
            subst this
            simp at h; subst h; simp
          · next nsb heq2 =>
            split at h
            · simp at h; subst h; simp
            · split at h
              · next e heq3 =>
                have := convert_address_to_block_index_error heq3
                subst this
                simp at h; subst h; simp
              · next sb heq3 =>
                split at h
                · next e heq4 =>
                  have := set_bitmap_error heq4
                  subst this
                  simp at h; subst h; simp
                · next bm heq4 =>
                  split at h
                  · simp at h
                  · next code st' heq5 =>
                    simp at h
                    subst h
                    exact read_sat_table_loop_ne_bts p ps bs skip sb nsb bsz
                      _ sb _ _ heq5

theorem read_save_break_spec (p : List Nat) (ps bs skip sb sdb : Nat)
    (bitmap : List Nat) (bsz bds size n : Nat)
    (ih : ∀ (cur : Nat) (buf : List Nat) (r : SLINGA_ERROR × List Nat),
      read_save_loop p ps bs skip sb sdb bitmap bsz bds size cur buf n = some r →
      r.fst ≠ SLINGA_BUFFER_TOO_SMALL ∧
        (r.fst = SLINGA_SUCCESS → r.snd.length = size))
    (buf : List Nat) (cur : Nat) (r : SLINGA_ERROR × List Nat)
    (h : (match get_next_block_bitmap cur bitmap bsz with
        | .error SLINGA_NOT_FOUND =>
          some (if buf.length = size then (SLINGA_SUCCESS, buf)
                else (SLINGA_SAT_INVALID_READ_SIZE, buf))
        | .error e => some (e, buf)
        | .ok next => read_save_loop p ps bs skip sb sdb bitmap bsz bds size
            next buf n) = some r) :
    r.fst ≠ SLINGA_BUFFER_TOO_SMALL ∧
      (r.fst = SLINGA_SUCCESS → r.snd.length = size) := by
  split at h
  · split at h <;> simp at h <;> subst h <;> simp_all
  · next e h1 heq =>
    rcases get_next_block_bitmap_error heq with he | he <;> subst he <;>
      simp_all <;> subst h <;> simp
  · next nx heq => exact ih _ _ _ h

theorem read_save_loop_spec (p : List Nat) (ps bs skip sb sdb : Nat)
    (bitmap : List Nat) (bsz bds size : Nat) :
    ∀ (fuel cur : Nat) (buf : List Nat) (r : SLINGA_ERROR × List Nat),
      read_save_loop p ps bs skip sb sdb bitmap bsz bds size cur buf fuel = some r →
      r.fst ≠ SLINGA_BUFFER_TOO_SMALL ∧
        (r.fst = SLINGA_SUCCESS → r.snd.length = size) := by
  intro fuel
  induction fuel with
  | zero => intro cur buf r h; simp [read_save_loop] at h
  | succ n ih =>
    intro cur buf r h
    unfold read_save_loop at h
    simp only [] at h
    split at h
    · next e heq =>
      have := convert_block_index_to_address_error heq
      subst this; simp at h; subst h; simp
    · next block heq =>
      split at h
      · split at h
        · next e heq2 =>
          have := read_from_partition_error heq2
          subst this; simp at h; subst h; simp
        · next bytes heq2 =>
          exact read_save_break_spec p ps bs skip sb sdb bitmap bsz bds size n
            ih _ _ _ h
      · split at h
        · split at h
          · split at h <;> simp at h <;> subst h <;> simp_all
          · next e heqr =>
            split_ifs at heqr
            · split at heqr
              · simp at heqr
              · simp at heqr
              · split at heqr
                · next e2 heqc =>
                  have h3 := convert_block_index_to_address_error heqc
                  subst h3
                  simp only [Except.error.injEq, Option.some.injEq] at heqr
                  subst heqr
                  simp at h; subst h; simp
                · simp at heqr
            · split at heqr
              · simp at heqr
              · simp at heqr
              · split at heqr
                · next e2 heqc =>
                  have h3 := convert_block_index_to_address_error heqc
                  subst h3
                  simp only [Except.error.injEq, Option.some.injEq] at heqr
                  subst heqr
                  simp at h; subst h; simp
                · simp at heqr
          · next c2 blk off heqr =>
            clear heqr
            split at h
            · split at h
              · simp at h; subst h; simp
              · split at h
                · simp at h; subst h; simp
                · split at h
                  · next e heq2 =>
                    have := read_from_partition_error heq2
                    subst this; simp at h; subst h; simp
                  · next bytes heq2 =>
                    exact read_save_break_spec p ps bs skip sb sdb bitmap bsz
                      bds size n ih _ _ _ h
            · split at h
              · simp at h; subst h; simp
              · split at h
                · simp at h; subst h; simp
                · split at h
                  · next e heq2 =>
                    have := read_from_partition_error heq2
                    subst this; simp at h; subst h; simp
                  · next bytes heq2 =>
                    exact read_save_break_spec p ps bs skip sb sdb bitmap bsz
                      bds size n ih _ _ _ h
        · exact read_save_break_spec p ps bs skip sb sdb bitmap bsz bds size n
            ih _ _ _ h

theorem read_save_from_sat_table_spec (size sb sdb : Nat) (bitmap : List Nat)
    (bsz : Nat) (p : List Nat) (ps bs skip : Nat)
    (r : SLINGA_ERROR × List Nat)
    (h : read_save_from_sat_table size sb sdb bitmap bsz p ps bs skip = some r) :
    r.fst ≠ SLINGA_BUFFER_TOO_SMALL ∧
      (r.fst = SLINGA_SUCCESS → r.snd.length = size) := by
  unfold read_save_from_sat_table at h
  split at h
  · simp at h; subst h; simp
  · split at h
    · next e heq =>
      have he : e = SLINGA_INVALID_PARAMETER := by
        split_ifs at heq <;> simp_all
      subst he
      simp at h; subst h; simp
    · next bds heq =>
      exact read_save_loop_spec p ps bs skip sb sdb bitmap bsz bds size _ _ _ _ h

theorem read_save_and_metadata_bts (p : List Nat) (ps bs skip : Nat)
    (filename hb : List Nat) (s a : Nat)
    (hfind : find_save filename p ps bs skip = some (.ok a))
    (hhdr : read_from_partition p a 0 SAT_START_BLOCK_HEADER_SIZE skip = .ok hb) :
    ((parseHeader hb).data_size < s →
      read_save_and_metadata p ps bs skip false filename true s =
        some (SLINGA_BUFFER_TOO_SMALL, [], none)) ∧
    (∀ r, read_save_and_metadata p ps bs skip false filename true s = some r →
      (r.fst = SLINGA_BUFFER_TOO_SMALL → (parseHeader hb).data_size < s) ∧
      (r.fst = SLINGA_SUCCESS → r.2.1.length = s)) := by
  constructor
  · intro hlt
    unfold read_save_and_metadata
    rw [hfind]
    simp only []
    rw [hhdr]
    simp only []
    rw [if_pos trivial, if_pos hlt]
  · intro r h
    unfold read_save_and_metadata at h
    rw [hfind] at h
    simp only [] at h
    rw [hhdr] at h
    simp only [] at h
    rw [if_pos trivial] at h
    by_cases hlt : (parseHeader hb).data_size < s
    · rw [if_pos hlt] at h
      simp at h
      subst h
      exact ⟨fun _ => hlt, by simp⟩
    · rw [if_neg hlt] at h
      split at h
      · simp at h
      · next e heqB =>
        simp at h
        subst h
        have he : e ≠ SLINGA_BUFFER_TOO_SMALL ∧ e ≠ SLINGA_SUCCESS := by
          split at heqB
          · next e2 heqG =>
            have h3 := get_bitmap_size_error heqG
            subst h3
            simp at heqB
            subst heqB
            constructor <;> simp
          · next bsz heqG =>
            split at heqB
            · simp at heqB
            · next code sbk sdbk bm heqT =>
              split at heqB
              · next hcode =>
                simp at heqB
                subst heqB
                exact ⟨read_sat_table_ne_bts p ps bs skip a _ bsz _ heqT, hcode⟩
              · next hcode =>
                split at heqB
                · simp at heqB
                · next code2 buf2 heqR =>
                  split at heqB
                  · next hcode2 =>
                    simp at heqB
                    subst heqB
                    exact ⟨(read_save_from_sat_table_spec s sbk sdbk bm bsz p
                      ps bs skip _ heqR).1, hcode2⟩
                  · simp at heqB
        exact ⟨fun hc => absurd hc he.1, fun hc => absurd hc he.2⟩
      · next buf heqB =>
        simp at h
        subst h
        refine ⟨by simp, fun _ => ?_⟩
        split at heqB
        · simp at heqB
        · next bsz heqG =>
          split at heqB
          · simp at heqB
          · next code sbk sdbk bm heqT =>
            split at heqB
            · simp at heqB
            · next hcode =>
              split at heqB
              · simp at heqB
              · next code2 buf2 heqR =>
                split at heqB
                · simp at heqB
                · next hcode2 =>
                  simp at heqB
                  subst heqB
                  exact (read_save_from_sat_table_spec s sbk sdbk bm bsz p
                    ps bs skip _ heqR).2 (not_not.mp hcode2)

/-- C10.  At the public read interface, for an existing save whose start-block
header records data size `d`, `sat_read` with size argument `s` fails with
`SLINGA_BUFFER_TOO_SMALL` exactly when `d < s`: a request for more bytes than
the save holds is rejected up front with an untouched output buffer, while for
any `s ≤ d` the size check passes and a successful read delivers exactly `s`
bytes. -/
theorem sat_read_buffer_too_small_iff
    (filename p hb : List Nat) (ps bs skip s a : Nat)
    (hfind : find_save filename p ps bs skip = some (.ok a))
    (hhdr : read_from_partition p a 0 SAT_START_BLOCK_HEADER_SIZE skip = .ok hb) :
    ((parseHeader hb).data_size < s →
      sat_read filename s p ps bs skip = some (SLINGA_BUFFER_TOO_SMALL, [])) ∧
    (∀ r, sat_read filename s p ps bs skip = some r →
      (r.fst = SLINGA_BUFFER_TOO_SMALL → (parseHeader hb).data_size < s) ∧
      (r.fst = SLINGA_SUCCESS → r.snd.length = s)) := by
  have hm := read_save_and_metadata_bts p ps bs skip filename hb s a hfind hhdr
  constructor
  · intro hlt
    unfold sat_read
    rw [hm.1 hlt]
  · intro r h
    unfold sat_read at h
    split at h
    · simp at h
    · next code buf md heq =>
      simp at h
      subst h
      have h2 := hm.2 _ heq
      exact ⟨h2.1, h2.2⟩

/-- Witness for C10: on the one-save demo partition the save "A" (start block
at byte 128) holds 10 data bytes, and asking `sat_read` for 11 bytes is
rejected with `SLINGA_BUFFER_TOO_SMALL`. -/
theorem sat_read_buffer_too_small_iff_witness :
    sat_read [65] 11 partitionOneSave 512 64 0 =
      some (SLINGA_BUFFER_TOO_SMALL, []) :=
  (sat_read_buffer_too_small_iff [65] partitionOneSave
    (readBytes partitionOneSave 128 0 34 0) 512 64 0 11 128
    (by decide) (by decide)).1 (by decide)

end Slinga
